import Mathlib

/-!
# dashboard_analyzer

A shallow embedding of the Lambda function in `main.go`, `awsModules.go` and
`bedrock.go`, and the properties of its orchestration.

Conventions of the embedding.

* A Go `string` is a Lean `String`; a `[]byte` holding text is a `String` too, the
  nil slice being `""`.
* A Go function returning `(T, error)` returns a pair `T × Option GoError`, with
  `none` for the nil error.
* A run that can panic (an index out of range, a failed type assertion) returns an
  `Outcome`.
* Logging is not modelled.
* The services the program talks to (SDK configuration, DynamoDB, CloudWatch,
  Bedrock, SNS, the clock) and the library functions whose text is not part of the
  repository (`json.Unmarshal`, `json.Marshal`, the `%v` rendering of a `float64`,
  `Time.AddDate`) are the fields of a `World`. Every service answer may depend on
  the list of calls made so far, which every function takes and returns.
-/

namespace DashboardAnalyzer

/-! ## Go values -/

/-- Error values: `errors.New`, `*strconv.NumError`, and the errors that the AWS SDK
and `encoding/json` hand back. -/
inductive GoError
  | New (msg : String)
  | NumError (Func : String) (Num : String) (Err : String)
  | External (msg : String)
  deriving DecidableEq, Repr

/-- The method `Error()` of an error value (`strconv.Quote` of the number is written
between plain double quotes). -/
def GoError.Error : GoError → String
  | .New msg => msg
  | .NumError f n e => "strconv." ++ f ++ ": parsing \"" ++ n ++ "\": " ++ e
  | .External msg => msg

/-- Result of running a function body: it returns, or it panics. -/
inductive Outcome (α : Type)
  | ret (a : α)
  | panic (msg : String)
  deriving DecidableEq, Repr

/-- Configuration, `envValues` of `main.go`. -/
structure envValues where
  dynamoDbTableName : String
  dynamoDbRegion : String
  bedrockRegion : String
  bedrockModelId : String
  snsTopicArn : String
  metricsName : List String
  deriving DecidableEq, Repr

/-! ## package strings -/

/-- Position of the first occurrence of `sep` in `s`, as `strings.Index`. -/
def Index (sep : List Char) : List Char → Option Nat
  | [] => if sep.isEmpty then some 0 else none
  | c :: cs =>
    if sep.isPrefixOf (c :: cs) then some 0
    else (Index sep cs).map (· + 1)

/-- The function `strings.Cut`: the text before and after the first `sep`, and
whether `sep` occurs. -/
def Cut (s sep : String) : String × String × Bool :=
  match Index sep.data s.data with
  | some i => (String.mk (s.data.take i), String.mk (s.data.drop (i + sep.data.length)), true)
  | none => (s, "", false)

/-- The function `strings.HasPrefix`. -/
def HasPrefix (s pre : String) : Bool :=
  pre.data.isPrefixOf s.data

/-- One step of `unicode.SimpleFold` on the orbits that contain an ASCII letter:
`K k U+212A` and `S s U+017F` have three members, every other ASCII letter pairs
with its other case. A rune outside these orbits is returned as it is; such a rune
is never equal under folding to an ASCII letter. -/
def SimpleFold (r : Char) : Char :=
  if r = 'K' then 'k'
  else if r = 'k' then Char.ofNat 0x212A
  else if r = Char.ofNat 0x212A then 'K'
  else if r = 'S' then 's'
  else if r = 's' then Char.ofNat 0x17F
  else if r = Char.ofNat 0x17F then 'S'
  else if r.isUpper then Char.ofNat (r.toNat + 32)
  else if r.isLower then Char.ofNat (r.toNat - 32)
  else r

/-- Inner loop of `strings.EqualFold`: `for r != sr && r < tr { r = SimpleFold(r) }`;
an orbit has at most four members, which bounds the number of steps. -/
def foldUpTo (sr tr : Char) : Nat → Char → Char
  | 0, r => r
  | n + 1, r => if r ≠ sr ∧ r < tr then foldUpTo sr tr n (SimpleFold r) else r

/-- Whether two runes are equal under simple case folding, the body of the rune loop
of `strings.EqualFold`. -/
def equalFoldRune (sr0 tr0 : Char) : Bool :=
  if tr0 = sr0 then true
  else
    let sr := if tr0 < sr0 then tr0 else sr0
    let tr := if tr0 < sr0 then sr0 else tr0
    if tr.toNat < 0x80 then
      decide ('A' ≤ sr ∧ sr ≤ 'Z' ∧ tr.toNat = sr.toNat + 32)
    else
      foldUpTo sr tr 4 (SimpleFold sr) = tr

/-- Rune loop of `strings.EqualFold`. -/
def equalFoldRunes : List Char → List Char → Bool
  | [], t => t.isEmpty
  | _ :: _, [] => false
  | sr :: s, tr :: t => equalFoldRune sr tr && equalFoldRunes s t

/-- The function `strings.EqualFold`. -/
def EqualFold (s t : String) : Bool :=
  equalFoldRunes s.data t.data

/-! ## package strconv -/

/-- Digit loop of `strconv.ParseUint` in base 10: `none` is `ErrSyntax`,
`some none` is `ErrRange`. -/
def parseDigits (maxVal : Nat) : List Char → Nat → Option (Option Nat)
  | [], n => some (some n)
  | c :: cs, n =>
    if c.isDigit then
      if n * 10 + (c.toNat - 48) > maxVal then some none
      else parseDigits maxVal cs (n * 10 + (c.toNat - 48))
    else none

/-- The function `strconv.ParseInt(s, 10, bitSize)`, reporting errors under the
function name `fn`. -/
def parseInt (fn : String) (s : String) (bitSize : Nat) : Int × Option GoError :=
  let neg := s.data.head? = some '-'
  let body := if s.data.head? = some '+' ∨ s.data.head? = some '-' then s.data.tail else s.data
  if body = [] then (0, some (.NumError fn s "invalid syntax"))
  else
    match parseDigits (2 ^ bitSize - 1) body 0 with
    | none => (0, some (.NumError fn s "invalid syntax"))
    | some none =>
      if neg then (-(2 ^ (bitSize - 1) : Int), some (.NumError fn s "value out of range"))
      else ((2 ^ (bitSize - 1) : Int) - 1, some (.NumError fn s "value out of range"))
    | some (some un) =>
      if ¬ neg ∧ un ≥ 2 ^ (bitSize - 1) then
        ((2 ^ (bitSize - 1) : Int) - 1, some (.NumError fn s "value out of range"))
      else if neg ∧ un > 2 ^ (bitSize - 1) then
        (-(2 ^ (bitSize - 1) : Int), some (.NumError fn s "value out of range"))
      else (if neg then -(un : Int) else (un : Int), none)

/-- The function `strconv.ParseInt` in base 10. -/
def ParseInt (s : String) (bitSize : Nat) : Int × Option GoError :=
  parseInt "ParseInt" s bitSize

/-- The function `strconv.Atoi` on a 64-bit platform. -/
def Atoi (s : String) : Int × Option GoError :=
  parseInt "Atoi" s 64

/-- Conversion `int32(x)` of an `int64`. -/
def toInt32 (x : Int) : Int :=
  (x + 2 ^ 31) % 2 ^ 32 - 2 ^ 31

/-! ## main.go: the environment -/

/-- The function `os.LookupEnv` over the entries `key=value` that `os.Environ`
returns: the value of the first entry with that key. -/
def LookupEnv (environ : List String) (key : String) : String × Bool :=
  match environ.find? (fun e => (Cut e "=").2.2 && (Cut e "=").1 == key) with
  | some e => ((Cut e "=").2.1, true)
  | none => ("", false)

/-- Source `getEnvironmentVariables`, main.go lines 34-42. -/
def getEnvironmentVariables (environ : List String) (varName : String) :
    String × Option GoError :=
  match LookupEnv environ varName with
  | (varValue, true) => (varValue, none)
  | (_, false) => ("", some (.New ("missing required environment variable " ++ varName)))

/-- Loop of `handler` over `os.Environ()`, main.go lines 70-78: the values of the
entries whose key starts with `METRICS_NAME_`, appended to `metricsName`; an empty
value ends the handler with an error. -/
def handler_metricsName : List String → List String → List String × Option GoError
  | [], metricsName => (metricsName, none)
  | env :: rest, metricsName =>
    if (Cut env "=").2.2 && HasPrefix (Cut env "=").1 "METRICS_NAME_" then
      if (Cut env "=").2.1 = "" then
        (metricsName, some (.New ("missing required environment variable " ++ (Cut env "=").1)))
      else handler_metricsName rest (metricsName ++ [(Cut env "=").2.1])
    else handler_metricsName rest metricsName

/-- First part of `handler`, main.go lines 48-82: the configuration read from the
environment, or the error with which `handler` returns. -/
def handler_env (environ : List String) : envValues × Option GoError :=
  let ev : envValues := ⟨"", "", "", "", "", []⟩
  match getEnvironmentVariables environ "DYNAMODB_TABLE_NAME" with
  | (_, some err) => (ev, some err)
  | (v1, none) =>
  let ev := { ev with dynamoDbTableName := v1 }
  match getEnvironmentVariables environ "DYNAMODB_REGION" with
  | (_, some err) => (ev, some err)
  | (v2, none) =>
  let ev := { ev with dynamoDbRegion := v2 }
  match getEnvironmentVariables environ "BEDROCK_REGION" with
  | (_, some err) => (ev, some err)
  | (v3, none) =>
  let ev := { ev with bedrockRegion := v3 }
  match getEnvironmentVariables environ "BEDROCK_MODEL_ID" with
  | (_, some err) => (ev, some err)
  | (v4, none) =>
  let ev := { ev with bedrockModelId := v4 }
  match getEnvironmentVariables environ "SNS_TOPIC_ARN" with
  | (_, some err) => (ev, some err)
  | (v5, none) =>
  let ev := { ev with snsTopicArn := v5 }
  match handler_metricsName environ ev.metricsName with
  | (names, some err) => ({ ev with metricsName := names }, some err)
  | (names, none) =>
  let ev := { ev with metricsName := names }
  if ev.metricsName.length = 0 ∨ ev.metricsName.length > 5 then
    (ev, some (.New "the count of metric names must be between 1 and 5"))
  else (ev, none)

/-! ## Types of the AWS SDK that the program uses -/

/-- The union `ddtypes.AttributeValue`: the string member, and the members the
program does not read. -/
inductive AttributeValue
  | S (Value : String)
  | N (Value : String)
  | BOOL (Value : Bool)
  | NULL
  | Other (kind : String)
  deriving DecidableEq, Repr

/-- Input `dynamodb.GetItemInput`. -/
structure GetItemInput where
  TableName : String
  Key : List (String × AttributeValue)
  deriving DecidableEq, Repr

/-- Output `dynamodb.GetItemOutput`; the map `Item` is a finite function. -/
structure GetItemOutput where
  Item : String → Option AttributeValue

/-- A `time.Time`, as seconds since the Unix epoch (the fraction of a second plays
no part in the program). -/
abbrev Time := Int

/-- A `float64`, as its 64 bits. -/
structure Float64 where
  bits : Nat
  deriving DecidableEq, Repr

/-- Struct `cwtypes.Dimension`. -/
structure Dimension where
  Name : String
  Value : String
  deriving DecidableEq, Repr

/-- Struct `cwtypes.Metric`. -/
structure Metric where
  Namespace : String
  MetricName : String
  Dimensions : List Dimension
  deriving DecidableEq, Repr

/-- Struct `cwtypes.MetricStat`. -/
structure MetricStat where
  Metric : Metric
  Period : Int
  Stat : String
  Unit : String
  deriving DecidableEq, Repr

/-- Struct `cwtypes.MetricDataQuery`. -/
structure MetricDataQuery where
  Id : String
  MetricStat : MetricStat
  deriving DecidableEq, Repr

/-- Input `cloudwatch.GetMetricDataInput`. -/
structure GetMetricDataInput where
  StartTime : Time
  EndTime : Time
  MetricDataQueries : List MetricDataQuery
  deriving DecidableEq, Repr

/-- Struct `cwtypes.MetricDataResult`, the two fields the program reads. -/
structure MetricDataResult where
  Timestamps : List Time
  Values : List Float64
  deriving DecidableEq, Repr

/-- Output `cloudwatch.GetMetricDataOutput`. -/
structure GetMetricDataOutput where
  MetricDataResults : List MetricDataResult
  deriving DecidableEq, Repr

/-- The union `types.DocumentSource`. -/
inductive DocumentSource
  | Bytes (Value : String)
  deriving DecidableEq, Repr

/-- Struct `types.DocumentBlock`. -/
structure DocumentBlock where
  Format : String
  Name : String
  Source : DocumentSource
  deriving DecidableEq, Repr

/-- The union `types.ContentBlock`: text, document, and the members the program
neither builds nor reads (image, tool use, tool result, guard content). -/
inductive ContentBlock
  | Text (Value : String)
  | Document (Value : DocumentBlock)
  | Other (kind : String)
  deriving DecidableEq, Repr

/-- Struct `types.Message`. -/
structure Message where
  Role : String
  Content : List ContentBlock
  deriving DecidableEq, Repr

/-- The union `types.SystemContentBlock`. -/
inductive SystemContentBlock
  | Text (Value : String)
  deriving DecidableEq, Repr

/-- A decimal literal `digits * 10 ^ exp10`, for the `float32` constant. -/
structure Decimal where
  digits : Int
  exp10 : Int
  deriving DecidableEq, Repr

/-- Struct `types.InferenceConfiguration`. -/
structure InferenceConfiguration where
  MaxTokens : Int
  Temperature : Decimal
  StopSequences : List String
  deriving DecidableEq, Repr

/-- Input `bedrockruntime.ConverseInput`. -/
structure ConverseInput where
  ModelId : String
  Messages : List Message
  System : List SystemContentBlock
  InferenceConfig : InferenceConfiguration
  deriving DecidableEq, Repr

/-- The union `types.ConverseOutput`: a message, or `*types.UnknownUnionMember`. -/
inductive ConverseOutputMember
  | Message (Value : Message)
  | UnknownUnionMember (Tag : String)
  deriving DecidableEq, Repr

/-- Output `bedrockruntime.ConverseOutput`; `Output` is `none` for a nil interface. -/
structure ConverseOutput where
  Output : Option ConverseOutputMember
  deriving DecidableEq, Repr

/-- Input `sns.PublishInput`. -/
structure PublishInput where
  TopicArn : String
  Message : String
  deriving DecidableEq, Repr

/-- Struct `SlackContent`, awsModules.go lines 27-29. -/
structure SlackContent where
  Description : String
  deriving DecidableEq, Repr

/-- Struct `SlackResponse`, awsModules.go lines 21-25. -/
structure SlackResponse where
  Version : String
  Source : String
  Content : SlackContent
  deriving DecidableEq, Repr

/-- Constant `types.DocumentFormatCsv`. -/
def DocumentFormatCsv : String := "csv"

/-- Constant `types.ConversationRoleUser`. -/
def ConversationRoleUser : String := "user"

/-! ## The world outside the program -/

/-- A call that leaves the program: loading the SDK configuration for a region, or
a request of a service client made from that configuration. -/
inductive Call
  | LoadDefaultConfig (region : String)
  | GetItem (region : String) (input : GetItemInput)
  | GetMetricData (region : String) (input : GetMetricDataInput)
  | Converse (region : String) (input : ConverseInput)
  | Publish (region : String) (input : PublishInput)
  deriving DecidableEq, Repr

/-- Whether the call is an inference request. -/
def Call.isConverse : Call → Bool
  | .Converse _ _ => true
  | _ => false

/-- Whether the call is a publish request. -/
def Call.isPublish : Call → Bool
  | .Publish _ _ => true
  | _ => false

/-- What the program gets from outside. The first argument of a service is the list
of the calls made before, oldest first. `Unmarshal` is `json.Unmarshal` into a
`[]map[string]string`, every map given as its pairs in the order in which `range`
visits them; `Marshal` is `json.Marshal` of a `SlackResponse`; `FormatFloat` is
`fmt.Sprintf("%v", x)` for a `float64`; `AddDate` is `Time.AddDate`. -/
structure World where
  LoadDefaultConfig : List Call → String → Option GoError
  GetItem : List Call → String → GetItemInput → Except GoError GetItemOutput
  Now : List Call → Time
  GetMetricData : List Call → String → GetMetricDataInput → Except GoError GetMetricDataOutput
  Converse : List Call → String → ConverseInput → Except GoError ConverseOutput
  Publish : List Call → String → PublishInput → Option GoError
  Unmarshal : String → Except GoError (List (List (String × String)))
  Marshal : SlackResponse → Except GoError String
  FormatFloat : Float64 → String
  AddDate : Time → Int → Int → Int → Time

/-- The calls made after the history `h`, in a history `h1` that extends it. -/
def newCalls (h h1 : List Call) : List Call :=
  h1.drop h.length

/-- Index expression `m[k]` of a `map[string]string`: the zero value for a missing
key. -/
def mapIndex (m : String → Option String) (k : String) : String :=
  (m k).getD ""

/-- Conversion to `int64` of an integer, wrapping. -/
def toInt64 (x : Int) : Int :=
  (x + 2 ^ 63) % 2 ^ 64 - 2 ^ 63

/-! ## package time: `t.In(jst).Format(time.RFC3339)` -/

/-- The function `appendInt` of package time: sign, zero padding to `width`, decimal
digits. -/
def appendInt (x : Int) (width : Nat) : List Char :=
  (if x < 0 then ['-'] else []) ++
    List.replicate (width - (Nat.toDigits 10 x.natAbs).length) '0' ++
    Nat.toDigits 10 x.natAbs

/-- Year, month and day of the civil date that lies `days` days after 1970-01-01 in
the proleptic Gregorian calendar. -/
def civilFromDays (days : Int) : Int × Int × Int :=
  let z := days + 719468
  let era := z / 146097
  let doe := z - era * 146097
  let yoe := (doe - doe / 1460 + doe / 36524 - doe / 146096) / 365
  let doy := doe - (365 * yoe + yoe / 4 - yoe / 100)
  let mp := (5 * doy + 2) / 153
  let d := doy - (153 * mp + 2) / 5 + 1
  let m := if mp < 10 then mp + 3 else mp - 9
  (if m ≤ 2 then yoe + era * 400 + 1 else yoe + era * 400, m, d)

/-- The text `t.In(zone).Format(time.RFC3339)` for a fixed zone `offset` seconds
east of UTC: layout `2006-01-02T15:04:05Z07:00`. -/
def FormatRFC3339 (offset : Int) (t : Time) : String :=
  let loc := t + offset
  let date := civilFromDays (loc / 86400)
  let sec := loc % 86400
  let zone :=
    if offset = 0 then ['Z']
    else (if offset < 0 then ['-'] else ['+']) ++
      appendInt (offset.natAbs / 3600) 2 ++ [':'] ++ appendInt (offset.natAbs % 3600 / 60) 2
  String.mk (appendInt date.1 4 ++ ['-'] ++ appendInt date.2.1 2 ++ ['-'] ++
    appendInt date.2.2 2 ++ ['T'] ++ appendInt (sec / 3600) 2 ++ [':'] ++
    appendInt (sec % 3600 / 60) 2 ++ [':'] ++ appendInt (sec % 60) 2 ++ zone)

/-! ## package encoding/csv: a `Writer` with the default comma and line end -/

/-- The function `unicode.IsSpace`. -/
def IsSpace (r : Char) : Bool :=
  r.toNat = 0x20 || (0x09 ≤ r.toNat && r.toNat ≤ 0x0D) || r.toNat = 0x85 || r.toNat = 0xA0 ||
    r.toNat = 0x1680 || (0x2000 ≤ r.toNat && r.toNat ≤ 0x200A) || r.toNat = 0x2028 ||
    r.toNat = 0x2029 || r.toNat = 0x202F || r.toNat = 0x205F || r.toNat = 0x3000

/-- Method `fieldNeedsQuotes` of `csv.Writer`. -/
def fieldNeedsQuotes (field : List Char) : Bool :=
  match field with
  | [] => false
  | r1 :: _ =>
    if field = ['\\', '.'] then true
    else if field.any (fun c => c = '\n' || c = '\r' || c = '"' || c = ',') then true
    else IsSpace r1

/-- A field written between quotes: every quote doubled, the rest verbatim. -/
def quoteField (field : List Char) : List Char :=
  ['"'] ++ field.flatMap (fun c => if c = '"' then ['"', '"'] else [c]) ++ ['"']

/-- The fields of a record as `Writer.Write` lays them out, a comma before every
field but the first. -/
def writeFields : List String → Bool → List Char
  | [], _ => []
  | field :: rest, first =>
    (if first then [] else [',']) ++
      (if fieldNeedsQuotes field.data then quoteField field.data else field.data) ++
      writeFields rest false

/-- Method `Write` of `csv.Writer`: the bytes added to the buffer for one record. -/
def csvWrite (record : List String) : List Char :=
  writeFields record true ++ ['\n']

/-! ## awsModules.go -/

/-- Source `GetParamsFromDynamoDb`, awsModules.go lines 31-61. -/
def GetParamsFromDynamoDb (w : World) (pKeyName : String) (ev : envValues) (h : List Call) :
    ((String → Option String) × Option GoError) × List Call :=
  match w.LoadDefaultConfig h ev.dynamoDbRegion with
  | some err => ((fun _ => none, some err), h ++ [.LoadDefaultConfig ev.dynamoDbRegion])
  | none =>
  let h1 := h ++ [.LoadDefaultConfig ev.dynamoDbRegion]
  let input : GetItemInput := ⟨ev.dynamoDbTableName, [("awsService", .S pKeyName)]⟩
  match w.GetItem h1 ev.dynamoDbRegion input with
  | .error err => ((fun _ => none, some err), h1 ++ [.GetItem ev.dynamoDbRegion input])
  | .ok resItems =>
    ((fun k => match resItems.Item k with
        | some (.S v) => some v
        | _ => none, none),
      h1 ++ [.GetItem ev.dynamoDbRegion input])

/-- The query that `GetSimpleMetricsData` builds, awsModules.go lines 87-135, from
the parameter record, the current time and the three parsed values. -/
def GetSimpleMetricsData_input (w : World) (params : String → Option String) (endTime : Time)
    (dateRangeInt : Int) (dims : List (List (String × String))) (period64 : Int) :
    GetMetricDataInput :=
  let startTime := w.AddDate endTime 0 0 (toInt64 (-dateRangeInt))
  let id := "m1"
  let namespace_ := mapIndex params "namespace"
  let metricName := mapIndex params "metricName"
  let dimensions : List Dimension :=
    dims.flatMap (fun v => v.map (fun nv => ⟨nv.1, nv.2⟩))
  let period := toInt32 period64
  let stat := mapIndex params "stat"
  let unit := mapIndex params "unit"
  { StartTime := startTime
    EndTime := endTime
    MetricDataQueries :=
      [{ Id := id
         MetricStat :=
           { Metric := { Namespace := namespace_, MetricName := metricName,
                         Dimensions := dimensions }
             Period := period
             Stat := stat
             Unit := unit } }] }

/-- First part of `GetSimpleMetricsData`, awsModules.go lines 64-140: the query sent
to CloudWatch and its response, or the error with which the function returns. -/
def GetSimpleMetricsData_query (w : World) (pKeyName : String) (ev : envValues)
    (h : List Call) : Except GoError GetMetricDataOutput × List Call :=
  match w.LoadDefaultConfig h ev.dynamoDbRegion with
  | some err => (.error err, h ++ [.LoadDefaultConfig ev.dynamoDbRegion])
  | none =>
  match GetParamsFromDynamoDb w pKeyName ev (h ++ [.LoadDefaultConfig ev.dynamoDbRegion]) with
  | ((_, some err), h2) => (.error err, h2)
  | ((params, none), h2) =>
  let endTime := w.Now h2
  match Atoi (mapIndex params "dateRange") with
  | (_, some err) => (.error err, h2)
  | (dateRangeInt, none) =>
  match w.Unmarshal (mapIndex params "dimensions") with
  | .error err => (.error err, h2)
  | .ok dims =>
  match ParseInt (mapIndex params "period") 32 with
  | (_, some err) => (.error err, h2)
  | (period64, none) =>
  let input := GetSimpleMetricsData_input w params endTime dateRangeInt dims period64
  match w.GetMetricData h2 ev.dynamoDbRegion input with
  | .error err => (.error err, h2 ++ [.GetMetricData ev.dynamoDbRegion input])
  | .ok resMetrics => (.ok resMetrics, h2 ++ [.GetMetricData ev.dynamoDbRegion input])

/-- Rows 1.. of `csvOutput`, awsModules.go lines 146-151: one record per timestamp,
with the value at the same index; the index expression `Values[i]` panics when
there are fewer values than timestamps. -/
def csvRecords (w : World) : List Time → List Float64 → Outcome (List (List String))
  | [], _ => .ret []
  | _ :: _, [] => .panic "index out of range"
  | t :: ts, v :: vs =>
    match csvRecords w ts vs with
    | .ret rows => .ret ([FormatRFC3339 (9 * 60 * 60) t, w.FormatFloat v] :: rows)
    | .panic msg => .panic msg

/-- Second part of `GetSimpleMetricsData`, awsModules.go lines 142-161: the CSV
bytes of the first result of the response. -/
def GetSimpleMetricsData_csv (w : World) (resMetrics : GetMetricDataOutput) :
    Outcome String :=
  match resMetrics.MetricDataResults with
  | [] => .panic "index out of range"
  | r :: _ =>
    match csvRecords w r.Timestamps r.Values with
    | .panic msg => .panic msg
    | .ret rows =>
      let csvOutput := ["timestamp", "value"] :: rows
      .ret (String.mk (csvOutput.flatMap csvWrite))

/-- Source `GetSimpleMetricsData`, awsModules.go lines 63-162. -/
def GetSimpleMetricsData (w : World) (pKeyName : String) (ev : envValues) (h : List Call) :
    Outcome (String × Option GoError) × List Call :=
  match GetSimpleMetricsData_query w pKeyName ev h with
  | (.error err, h1) => (.ret ("", some err), h1)
  | (.ok resMetrics, h1) =>
    match GetSimpleMetricsData_csv w resMetrics with
    | .panic msg => (.panic msg, h1)
    | .ret csvData => (.ret (csvData, none), h1)

/-- The value `slackMessage` that `SendMessageSns` builds, awsModules.go lines
180-186. -/
def SendMessageSns_slackMessage (desc : String) : SlackResponse :=
  { Version := "1.0"
    Source := "custom"
    Content := { Description := "*Daily Dashboard Analyzer*\n" ++ desc } }

/-- Source `SendMessageSns`, awsModules.go lines 164-205. -/
def SendMessageSns (w : World) (ev : envValues) (desc : String) (h : List Call) :
    Option GoError × List Call :=
  if ev.snsTopicArn = "" ∨ EqualFold ev.snsTopicArn "none" = true then (none, h)
  else
  match w.LoadDefaultConfig h ev.dynamoDbRegion with
  | some err => (some err, h ++ [.LoadDefaultConfig ev.dynamoDbRegion])
  | none =>
  let h1 := h ++ [.LoadDefaultConfig ev.dynamoDbRegion]
  let slackMessage := SendMessageSns_slackMessage desc
  match w.Marshal slackMessage with
  | .error err => (some err, h1)
  | .ok slackMessageStr =>
  let input : PublishInput := { TopicArn := ev.snsTopicArn, Message := slackMessageStr }
  match w.Publish h1 ev.dynamoDbRegion input with
  | some err => (some err, h1 ++ [.Publish ev.dynamoDbRegion input])
  | none => (none, h1 ++ [.Publish ev.dynamoDbRegion input])

/-! ## bedrock.go -/

/-- Source `getSystemStr`, bedrock.go lines 98-146. -/
def getSystemStr : String :=
  "\n" ++
  "You are a Senior SRE Engineer working in a team developing a smartphone application.\n" ++
  "One of your tasks is to detect and prevent application performance degradation and failures.\n" ++
  "You are required to correlate various metric data with timestamps and find correlations between them, and report back to us in terms of the following\n" ++
  "Increased number of ALB requests is expected to impact response and latency. Please detect changes in response time and latency per request count and tell us if you determine that the increase in requests has caused a sudden performance degradation.\n" ++
  "\n" ++
  "# Perspective\n" ++
  "- See [Explanation of Metrics Data](#explanation-of-metrics-data) for the meaning of metrics data\n" ++
  "\t- ALB target response time, less than 0.5 seconds is considered normal\n" ++
  "\t- Aurora DML Latency, less than 1.5 milliseconds is considered normal\n" ++
  "\t- Aurora Select latency, less than 0.4 milliseconds is considered normal\n" ++
  "- Detecting performance degradation and its signs\n" ++
  "\t- Reports a pattern of slowly worsening metrics\n" ++
  "- Detects the occurrence or suspicion of a failure\n" ++
  "\t- Reports a metric pattern of sudden fluctuations in metric data\n" ++
  "\t- Report a metric pattern where metric data is suddenly missing\n" ++
  "- Report any extreme up/down fluctuations in metrics data during a period of time\n" ++
  "\t- Ignore if it fluctuates by 10%% in an hour\n" ++
  "- Metrics data include data from the past few days, but the primary data to investigate are those within 24 hours of the present\n" ++
  "\t- Use data from the past few days as a performance baseline\n" ++
  "\n" ++
  "# Explanation of Metrics Data\n" ++
  "The types of metrics data to be obtained and their descriptions are shown below.\n" ++
  "\n" ++
  "## ALB Requests\n" ++
  "Number of requests processed via IPv4 and IPv6. This metric is only incremented for requests for which the load balancer node was able to select a target. Requests that are rejected before a target is selected are not reflected in this metric.\n" ++
  "\n" ++
  "## ALB Target Response Time\n" ++
  "The time (in seconds) elapsed after a request leaves the load balancer before the target begins sending response headers.\n" ++
  "\n" ++
  "## Aurora DML Latency\n" ++
  "Average time (in milliseconds) for inserts, updates, and deletes against the database cluster.\n" ++
  "\n" ++
  "## Aurora Select Latency\n" ++
  "Average time (in milliseconds) for select queries against the database cluster.\n" ++
  "\n" ++
  "## ECS CPU Utilization\n" ++
  "Number of CPU units used by the task for the resource specified by the dimension set being used.\n" ++
  "\n" ++
  "## Reporting format\n" ++
  "Please report in markdown format. Please summarize the main points using bullet points and provide supporting data.\n" ++
  "Report only objective facts based on data; do not include speculation or suggestions for improvement.\n" ++
  "If no abnormality is found, please report “no abnormality”.\n" ++
  "Please summarize your report in less than 4000 bytes and describe in Japanese.\n"

/-- Loop of `ConverseModel` over `ev.metricsName`, bedrock.go lines 26-34: the
document of every metric, in order, or the first error. The assignment
`messageData[i] = res` at increasing `i` is the growth of the list `messageData`. -/
def ConverseModel_fetch (w : World) (ev : envValues) :
    List String → List String → List Call → Outcome (List String × Option GoError) × List Call
  | [], messageData, h => (.ret (messageData, none), h)
  | name :: rest, messageData, h =>
    match GetSimpleMetricsData w name ev h with
    | (.panic msg, h1) => (.panic msg, h1)
    | (.ret (_, some err), h1) => (.ret (messageData, some err), h1)
    | (.ret (res, none), h1) => ConverseModel_fetch w ev rest (messageData ++ [res]) h1

/-- Loop of `ConverseModel` that builds the content of the user message, bedrock.go
lines 43-55: for every metric a text block and a document block. `messageData` has
the length of `ev.metricsName`, so the index `i` walks the two lists together. -/
def ConverseModel_content : List String → List String → List ContentBlock
  | name :: names, data :: datas =>
    ContentBlock.Text ("This document contains " ++ name) ::
      ContentBlock.Document
        { Format := DocumentFormatCsv, Name := name, Source := .Bytes data } ::
      ConverseModel_content names datas
  | _, _ => []

/-- Input of the inference call, bedrock.go lines 36-78. -/
def ConverseModel_input (ev : envValues) (messageData : List String) : ConverseInput :=
  let systemStr := getSystemStr
  let system := [SystemContentBlock.Text systemStr]
  let contentBlocks := ConverseModel_content ev.metricsName messageData
  let message : Message := { Role := ConversationRoleUser, Content := contentBlocks }
  let infenceConfig : InferenceConfiguration :=
    { MaxTokens := 4000, Temperature := ⟨1, -1⟩, StopSequences := ["\n\nHuman:"] }
  { ModelId := ev.bedrockModelId
    Messages := [message]
    System := system
    InferenceConfig := infenceConfig }

/-- The switch on the output of the model, bedrock.go lines 85-95: `Content[0]`
panics on a message without content, and the type assertion panics on a first block
that is not text. -/
def ConverseModel_output (modelOutput : ConverseOutput) : Outcome String :=
  match modelOutput.Output with
  | some (.Message v) =>
    match v.Content with
    | [] => .panic "index out of range [0] with length 0"
    | .Text outputStr :: _ => .ret outputStr
    | _ :: _ => .panic "interface conversion: types.ContentBlock is not *types.ContentBlockMemberText"
  | some (.UnknownUnionMember _) => .ret ""
  | none => .ret ""

/-- Source `ConverseModel`, bedrock.go lines 12-96. -/
def ConverseModel (w : World) (ev : envValues) (h : List Call) :
    Outcome (String × Option GoError) × List Call :=
  match w.LoadDefaultConfig h ev.bedrockRegion with
  | some err => (.ret ("", some err), h ++ [.LoadDefaultConfig ev.bedrockRegion])
  | none =>
  match ConverseModel_fetch w ev ev.metricsName [] (h ++ [.LoadDefaultConfig ev.bedrockRegion]) with
  | (.panic msg, h1) => (.panic msg, h1)
  | (.ret (_, some err), h1) => (.ret ("", some err), h1)
  | (.ret (messageData, none), h1) =>
  let input := ConverseModel_input ev messageData
  match w.Converse h1 ev.bedrockRegion input with
  | .error err => (.ret ("", some err), h1 ++ [.Converse ev.bedrockRegion input])
  | .ok modelOutput =>
    match ConverseModel_output modelOutput with
    | .panic msg => (.panic msg, h1 ++ [.Converse ev.bedrockRegion input])
    | .ret outputStr => (.ret (outputStr, none), h1 ++ [.Converse ev.bedrockRegion input])

/-! ## main.go: the handler -/

/-- Source `handler`, main.go lines 44-101. -/
def handler (w : World) (environ : List String) (h : List Call) :
    Outcome (String × Option GoError) × List Call :=
  match handler_env environ with
  | (_, some err) => (.ret ("", some err), h)
  | (ev, none) =>
  match ConverseModel w ev h with
  | (.panic msg, h1) => (.panic msg, h1)
  | (.ret (_, some err), h1) => (.ret ("", some err), h1)
  | (.ret (response, none), h1) =>
  match SendMessageSns w ev response h1 with
  | (some err, h2) => (.ret ("", some err), h2)
  | (none, h2) => (.ret (response, none), h2)

/-! ## Notions used to state the properties -/

/-- The five variables that `handler` requires, in the order in which it reads
them. -/
def requiredVars : List String :=
  ["DYNAMODB_TABLE_NAME", "DYNAMODB_REGION", "BEDROCK_REGION", "BEDROCK_MODEL_ID",
    "SNS_TOPIC_ARN"]

/-- Whether an entry of the environment has a key that starts with `METRICS_NAME_`. -/
def isMetricsEntry (env : String) : Bool :=
  (Cut env "=").2.2 && HasPrefix (Cut env "=").1 "METRICS_NAME_"

/-- Number of entries of the environment whose key starts with `METRICS_NAME_`. -/
def metricsEntryCount (environ : List String) : Nat :=
  (environ.filter isMetricsEntry).length

/-! ## Sample inputs -/

/-- An environment with the five variables and six metric entries. -/
def sixMetricsEnv : List String :=
  ["DYNAMODB_TABLE_NAME=params", "DYNAMODB_REGION=ap-northeast-1",
    "BEDROCK_REGION=us-east-1", "BEDROCK_MODEL_ID=model-1",
    "SNS_TOPIC_ARN=arn:aws:sns:ap-northeast-1:123456789012:reports",
    "METRICS_NAME_1=a", "METRICS_NAME_2=b", "METRICS_NAME_3=c", "METRICS_NAME_4=d",
    "METRICS_NAME_5=e", "METRICS_NAME_6=f"]

/-- An environment in which `BEDROCK_REGION` is not set. -/
def noBedrockRegionEnv : List String :=
  ["DYNAMODB_TABLE_NAME=params", "DYNAMODB_REGION=ap-northeast-1",
    "BEDROCK_MODEL_ID=model-1", "SNS_TOPIC_ARN=none", "METRICS_NAME_1=alb-requests"]

/-- An environment in which `SNS_TOPIC_ARN` is set to the empty string. -/
def emptyTopicEnv : List String :=
  ["DYNAMODB_TABLE_NAME=params", "DYNAMODB_REGION=ap-northeast-1",
    "BEDROCK_REGION=us-east-1", "BEDROCK_MODEL_ID=model-1", "SNS_TOPIC_ARN=",
    "METRICS_NAME_1=alb-requests"]

/-- An environment with two metrics and a topic. -/
def twoMetricsEnv : List String :=
  ["DYNAMODB_TABLE_NAME=params", "DYNAMODB_REGION=ap-northeast-1",
    "BEDROCK_REGION=us-east-1", "BEDROCK_MODEL_ID=model-1",
    "SNS_TOPIC_ARN=arn:aws:sns:ap-northeast-1:123456789012:reports",
    "METRICS_NAME_1=alb-requests", "METRICS_NAME_2=aurora-select"]

/-- The configuration read from `twoMetricsEnv`. -/
def twoMetricsEv : envValues :=
  { dynamoDbTableName := "params"
    dynamoDbRegion := "ap-northeast-1"
    bedrockRegion := "us-east-1"
    bedrockModelId := "model-1"
    snsTopicArn := "arn:aws:sns:ap-northeast-1:123456789012:reports"
    metricsName := ["alb-requests", "aurora-select"] }

/-- A world in which every service answers: the parameter table holds the same
record for every key, CloudWatch returns one series of two samples, the model
answers with one text block. `Marshal` writes the three strings without escapes. -/
def sampleWorld : World where
  LoadDefaultConfig _ _ := none
  GetItem _ _ _ := .ok
    { Item := fun k =>
        if k = "awsService" then some (.S "alb-requests")
        else if k = "namespace" then some (.S "AWS/ApplicationELB")
        else if k = "metricName" then some (.S "RequestCount")
        else if k = "dimensions" then some (.S "[]")
        else if k = "dateRange" then some (.S "3")
        else if k = "period" then some (.S "300")
        else if k = "stat" then some (.S "Sum")
        else if k = "unit" then some (.S "Count")
        else if k = "ttl" then some (.N "0")
        else none }
  Now _ := 1700000000
  GetMetricData _ _ _ := .ok
    { MetricDataResults :=
        [{ Timestamps := [1699999200, 1699999500]
           Values := [⟨0x4045000000000000⟩, ⟨0x3FF8000000000000⟩] }] }
  Converse _ _ _ := .ok { Output := some (.Message ⟨"assistant", [.Text "no abnormality"]⟩) }
  Publish _ _ _ := none
  Unmarshal s := if s = "[]" then .ok [] else .error (.External "unexpected end of JSON input")
  Marshal m := .ok ("\x7b\"version\":\"" ++ m.Version ++ "\",\"source\":\"" ++ m.Source ++
    "\",\"content\":\x7b\"description\":\"" ++ m.Content.Description ++ "\"\x7d\x7d")
  FormatFloat x :=
    if x.bits = 0x4045000000000000 then "42"
    else if x.bits = 0x3FF8000000000000 then "1.5"
    else "0"
  AddDate t _ _ days := t + days * 86400

/-! ## Reading a tabular document back -/

/-- The characters of an RFC 3339 time and of the `%v` text of a `float64` (digits,
sign, point, exponent mark, `Inf`, `NaN`). -/
def fieldChars : List Char :=
  "0123456789-+:.TZeInfNa".data

/-- The pieces of a text between the occurrences of `sep`. -/
def splitOnChar (sep : Char) : List Char → List (List Char)
  | [] => [[]]
  | c :: cs =>
    if c = sep then [] :: splitOnChar sep cs
    else
      match splitOnChar sep cs with
      | f :: fs => (c :: f) :: fs
      | [] => [[c]]

/-- The rows of a tabular document: its newline-terminated lines, each cut at its
commas. -/
def csvRowsOf (doc : String) : List (List String) :=
  (splitOnChar '\n' doc.data).dropLast.map (fun line => (splitOnChar ',' line).map String.mk)

/-! ## Runs of the fetch loop -/

/-- Every fetch succeeds: started with the calls `h`, the fetches of the metrics
`names`, one after the other, return the documents `docs` with no error and end with
the calls `h1`. -/
def FetchesSucceed (w : World) (ev : envValues) :
    List String → List Call → List String → List Call → Prop
  | [], h, [], h1 => h1 = h
  | m :: ms, h, d :: ds, h1 =>
    (GetSimpleMetricsData w m ev h).1 = .ret (d, none) ∧
      FetchesSucceed w ev ms (GetSimpleMetricsData w m ev h).2 ds h1
  | _, _, _, _ => False

/-- The series that `sampleWorld` returns for every query. -/
def sampleResult : MetricDataResult :=
  { Timestamps := [1699999200, 1699999500]
    Values := [⟨0x4045000000000000⟩, ⟨0x3FF8000000000000⟩] }

/-- The query that `GetSimpleMetricsData` sends in `sampleWorld`. -/
def sampleQuery : GetMetricDataInput :=
  { StartTime := 1699740800
    EndTime := 1700000000
    MetricDataQueries :=
      [{ Id := "m1"
         MetricStat :=
           { Metric := { Namespace := "AWS/ApplicationELB", MetricName := "RequestCount",
                         Dimensions := [] }
             Period := 300
             Stat := "Sum"
             Unit := "Count" } }] }

/-- The calls of one fetch in `sampleWorld` under the configuration `twoMetricsEv`. -/
def sampleFetchCalls (pKeyName : String) : List Call :=
  [.LoadDefaultConfig "ap-northeast-1", .LoadDefaultConfig "ap-northeast-1",
    .GetItem "ap-northeast-1" { TableName := "params", Key := [("awsService", .S pKeyName)] },
    .GetMetricData "ap-northeast-1" sampleQuery]

/-- The document of one fetch in `sampleWorld`. -/
def sampleDoc : String :=
  "timestamp,value\n2023-11-15T07:00:00+09:00,42\n2023-11-15T07:05:00+09:00,1.5\n"

/-- The fetch of one metric fails: started with the calls `h`, one of the steps of
`GetSimpleMetricsData` for the key gives the error `err`, and the fetch ends with the
calls `h2`. The steps are the SDK configuration, the parameter lookup, the decimal
`dateRange`, the JSON `dimensions`, the decimal 32-bit `period`, and the metric
query. -/
inductive FetchFails (w : World) (pKeyName : String) (ev : envValues) (h : List Call) :
    GoError → List Call → Prop
  | sdkConfig (err : GoError) :
    w.LoadDefaultConfig h ev.dynamoDbRegion = some err →
    FetchFails w pKeyName ev h err (h ++ [.LoadDefaultConfig ev.dynamoDbRegion])
  | lookup (m : String → Option String) (err : GoError) (h2 : List Call) :
    w.LoadDefaultConfig h ev.dynamoDbRegion = none →
    GetParamsFromDynamoDb w pKeyName ev (h ++ [.LoadDefaultConfig ev.dynamoDbRegion]) =
      ((m, some err), h2) →
    FetchFails w pKeyName ev h err h2
  | dateRange (params : String → Option String) (h2 : List Call) (n : Int) (err : GoError) :
    w.LoadDefaultConfig h ev.dynamoDbRegion = none →
    GetParamsFromDynamoDb w pKeyName ev (h ++ [.LoadDefaultConfig ev.dynamoDbRegion]) =
      ((params, none), h2) →
    Atoi (mapIndex params "dateRange") = (n, some err) →
    FetchFails w pKeyName ev h err h2
  | dimensions (params : String → Option String) (h2 : List Call) (n : Int) (err : GoError) :
    w.LoadDefaultConfig h ev.dynamoDbRegion = none →
    GetParamsFromDynamoDb w pKeyName ev (h ++ [.LoadDefaultConfig ev.dynamoDbRegion]) =
      ((params, none), h2) →
    Atoi (mapIndex params "dateRange") = (n, none) →
    w.Unmarshal (mapIndex params "dimensions") = .error err →
    FetchFails w pKeyName ev h err h2
  | period (params : String → Option String) (h2 : List Call) (n : Int)
      (dims : List (List (String × String))) (p : Int) (err : GoError) :
    w.LoadDefaultConfig h ev.dynamoDbRegion = none →
    GetParamsFromDynamoDb w pKeyName ev (h ++ [.LoadDefaultConfig ev.dynamoDbRegion]) =
      ((params, none), h2) →
    Atoi (mapIndex params "dateRange") = (n, none) →
    w.Unmarshal (mapIndex params "dimensions") = .ok dims →
    ParseInt (mapIndex params "period") 32 = (p, some err) →
    FetchFails w pKeyName ev h err h2
  | query (params : String → Option String) (h2 : List Call) (n : Int)
      (dims : List (List (String × String))) (p : Int) (err : GoError) :
    w.LoadDefaultConfig h ev.dynamoDbRegion = none →
    GetParamsFromDynamoDb w pKeyName ev (h ++ [.LoadDefaultConfig ev.dynamoDbRegion]) =
      ((params, none), h2) →
    Atoi (mapIndex params "dateRange") = (n, none) →
    w.Unmarshal (mapIndex params "dimensions") = .ok dims →
    ParseInt (mapIndex params "period") 32 = (p, none) →
    w.GetMetricData h2 ev.dynamoDbRegion
      (GetSimpleMetricsData_input w params (w.Now h2) n dims p) = .error err →
    FetchFails w pKeyName ev h err
      (h2 ++ [.GetMetricData ev.dynamoDbRegion
        (GetSimpleMetricsData_input w params (w.Now h2) n dims p)])

/-- A world in which the SDK configuration cannot be loaded. -/
def noSdkConfigWorld : World :=
  { sampleWorld with
    LoadDefaultConfig := fun _ _ => some (.External "failed to load shared config file") }

/-- A world in which the model response carries no output. -/
def nilOutputWorld : World :=
  { sampleWorld with Converse := fun _ _ _ => .ok { Output := none } }

/-- A world in which the model answers with a message that has no content block. -/
def emptyContentWorld : World :=
  { sampleWorld with
    Converse := fun _ _ _ => .ok { Output := some (.Message ⟨"assistant", []⟩) } }

/-- A world in which the model answers with a message whose text comes second. -/
def textSecondWorld : World :=
  { sampleWorld with
    Converse := fun _ _ _ =>
      .ok { Output := some (.Message ⟨"assistant", [.Other "toolUse", .Text "no abnormality"]⟩) } }

/-- A world in which the parameter record of the key `aurora-select` holds the
period `5m`. -/
def badPeriodWorld : World :=
  { sampleWorld with
    GetItem := fun _ _ input => .ok
      { Item := fun k =>
          if k = "dimensions" then some (.S "[]")
          else if k = "dateRange" then some (.S "3")
          else if k = "period" then
            (if input.Key = [("awsService", .S "aurora-select")] then some (.S "5m")
             else some (.S "300"))
          else if k = "namespace" then some (.S "AWS/ApplicationELB")
          else if k = "metricName" then some (.S "RequestCount")
          else if k = "stat" then some (.S "Sum")
          else if k = "unit" then some (.S "Count")
          else none } }

/-! ## Properties -/

/-! ### The library functions on sample values -/

theorem EqualFold_none_samples :
    EqualFold "none" "none" = true ∧ EqualFold "NONE" "none" = true ∧
      EqualFold "NoNe" "none" = true ∧ EqualFold "nine" "none" = false ∧
      EqualFold "none " "none" = false ∧ EqualFold "" "none" = false := by
  decide

theorem Cut_samples :
    Cut "METRICS_NAME_1=alb=requests" "=" = ("METRICS_NAME_1", "alb=requests", true) ∧
      Cut "METRICS_NAME_1=" "=" = ("METRICS_NAME_1", "", true) ∧
      Cut "METRICS_NAME_1" "=" = ("METRICS_NAME_1", "", false) := by
  decide

theorem strconv_samples :
    Atoi "3" = (3, none) ∧ Atoi "-14" = (-14, none) ∧
      Atoi "" = (0, some (.NumError "Atoi" "" "invalid syntax")) ∧
      Atoi "three" = (0, some (.NumError "Atoi" "three" "invalid syntax")) ∧
      Atoi "9223372036854775808" =
        (9223372036854775807, some (.NumError "Atoi" "9223372036854775808" "value out of range")) ∧
      ParseInt "300" 32 = (300, none) ∧
      ParseInt "2147483648" 32 =
        (2147483647, some (.NumError "ParseInt" "2147483648" "value out of range")) ∧
      ParseInt "-2147483648" 32 = (-2147483648, none) ∧
      ParseInt "5m" 32 = (0, some (.NumError "ParseInt" "5m" "invalid syntax")) := by
  decide

theorem FormatRFC3339_samples :
    FormatRFC3339 (9 * 60 * 60) 0 = "1970-01-01T09:00:00+09:00" ∧
      FormatRFC3339 (9 * 60 * 60) 1699999200 = "2023-11-15T07:00:00+09:00" ∧
      FormatRFC3339 (9 * 60 * 60) 1709218799 = "2024-02-29T23:59:59+09:00" ∧
      FormatRFC3339 (9 * 60 * 60) 1735657200 = "2025-01-01T00:00:00+09:00" ∧
      FormatRFC3339 0 951782400 = "2000-02-29T00:00:00Z" := by
  decide

theorem csvWrite_samples :
    String.mk (csvWrite ["timestamp", "value"]) = "timestamp,value\n" ∧
      String.mk (csvWrite ["a,b", " x", "q\"r", ""]) = "\"a,b\",\" x\",\"q\"\"r\",\n" := by
  decide

/-! ### The configuration -/

theorem handler_metricsName_length (environ : List String) :
    ∀ acc names, handler_metricsName environ acc = (names, none) →
      names.length = acc.length + metricsEntryCount environ := by
  induction environ with
  | nil =>
    intro acc names hr
    simp [handler_metricsName] at hr
    simp [metricsEntryCount, hr]
  | cons env rest ih =>
    intro acc names hr
    unfold handler_metricsName at hr
    by_cases hm : ((Cut env "=").2.2 && HasPrefix (Cut env "=").1 "METRICS_NAME_") = true
    · rw [if_pos hm] at hr
      by_cases hv : (Cut env "=").2.1 = ""
      · rw [if_pos hv] at hr
        simp at hr
      · rw [if_neg hv] at hr
        have := ih _ _ hr
        have hme : isMetricsEntry env = true := hm
        simp [metricsEntryCount, List.filter_cons, hme] at this ⊢
        omega
    · rw [if_neg hm] at hr
      have := ih _ _ hr
      have hme : isMetricsEntry env = false := by
        simpa [isMetricsEntry] using hm
      simp [metricsEntryCount, List.filter_cons, hme] at this ⊢
      omega

theorem handler_metricsName_ne_empty (environ : List String) :
    ∀ acc names, handler_metricsName environ acc = (names, none) →
      (∀ m ∈ acc, m ≠ "") → ∀ m ∈ names, m ≠ "" := by
  induction environ with
  | nil =>
    intro acc names hr hacc
    simp [handler_metricsName] at hr
    subst hr
    exact hacc
  | cons env rest ih =>
    intro acc names hr hacc
    unfold handler_metricsName at hr
    by_cases hm : ((Cut env "=").2.2 && HasPrefix (Cut env "=").1 "METRICS_NAME_") = true
    · rw [if_pos hm] at hr
      by_cases hv : (Cut env "=").2.1 = ""
      · rw [if_pos hv] at hr
        simp at hr
      · rw [if_neg hv] at hr
        refine ih _ _ hr ?_
        intro m hmem
        rcases List.mem_append.mp hmem with h1 | h1
        · exact hacc m h1
        · simp at h1
          subst h1
          exact hv
    · rw [if_neg hm] at hr
      exact ih _ _ hr hacc

theorem getEnvironmentVariables_set (environ : List String) (varName : String)
    (hset : (LookupEnv environ varName).2 = true) :
    getEnvironmentVariables environ varName = ((LookupEnv environ varName).1, none) := by
  unfold getEnvironmentVariables
  rcases hl : LookupEnv environ varName with ⟨v, b⟩
  rw [hl] at hset
  simp at hset
  subst hset
  rfl

theorem getEnvironmentVariables_unset (environ : List String) (varName : String)
    (hset : (LookupEnv environ varName).2 = false) :
    getEnvironmentVariables environ varName =
      ("", some (.New ("missing required environment variable " ++ varName))) := by
  unfold getEnvironmentVariables
  rcases hl : LookupEnv environ varName with ⟨v, b⟩
  rw [hl] at hset
  simp at hset
  subst hset
  rfl

theorem getEnvironmentVariables_none (environ : List String) (varName v : String)
    (hr : getEnvironmentVariables environ varName = (v, none)) :
    LookupEnv environ varName = (v, true) := by
  unfold getEnvironmentVariables at hr
  rcases hl : LookupEnv environ varName with ⟨v1, b⟩
  rw [hl] at hr
  cases b with
  | true =>
    simp at hr
    rw [hr]
  | false => simp at hr

/-- What an accepted environment looks like: the five variables are set, the fields
hold their values, and the metric loop ended without error with between one and
five names. -/
theorem handler_env_none (environ : List String) (ev : envValues)
    (hr : handler_env environ = (ev, none)) :
    LookupEnv environ "DYNAMODB_TABLE_NAME" = (ev.dynamoDbTableName, true) ∧
    LookupEnv environ "DYNAMODB_REGION" = (ev.dynamoDbRegion, true) ∧
    LookupEnv environ "BEDROCK_REGION" = (ev.bedrockRegion, true) ∧
    LookupEnv environ "BEDROCK_MODEL_ID" = (ev.bedrockModelId, true) ∧
    LookupEnv environ "SNS_TOPIC_ARN" = (ev.snsTopicArn, true) ∧
    handler_metricsName environ [] = (ev.metricsName, none) ∧
    1 ≤ ev.metricsName.length ∧ ev.metricsName.length ≤ 5 := by
  unfold handler_env at hr
  rcases h1 : getEnvironmentVariables environ "DYNAMODB_TABLE_NAME" with ⟨v1, e1⟩
  rcases h2 : getEnvironmentVariables environ "DYNAMODB_REGION" with ⟨v2, e2⟩
  rcases h3 : getEnvironmentVariables environ "BEDROCK_REGION" with ⟨v3, e3⟩
  rcases h4 : getEnvironmentVariables environ "BEDROCK_MODEL_ID" with ⟨v4, e4⟩
  rcases h5 : getEnvironmentVariables environ "SNS_TOPIC_ARN" with ⟨v5, e5⟩
  rcases h6 : handler_metricsName environ [] with ⟨names, e6⟩
  rw [h1] at hr
  cases e1 with
  | some err => simp at hr
  | none =>
  simp only [h2] at hr
  cases e2 with
  | some err => simp at hr
  | none =>
  simp only [h3] at hr
  cases e3 with
  | some err => simp at hr
  | none =>
  simp only [h4] at hr
  cases e4 with
  | some err => simp at hr
  | none =>
  simp only [h5] at hr
  cases e5 with
  | some err => simp at hr
  | none =>
  simp only [h6] at hr
  cases e6 with
  | some err => simp at hr
  | none =>
  simp only at hr
  split at hr
  · simp at hr
  · rename_i hlen
    simp at hr
    subst hr
    simp at hlen
    refine ⟨getEnvironmentVariables_none _ _ _ h1, getEnvironmentVariables_none _ _ _ h2,
      getEnvironmentVariables_none _ _ _ h3, getEnvironmentVariables_none _ _ _ h4,
      getEnvironmentVariables_none _ _ _ h5, rfl, ?_, ?_⟩
    · simp
      cases names with
      | nil => simp at hlen
      | cons a l => simp
    · simpa using hlen.2

theorem handler_env_set (environ : List String)
    (hset : ∀ n ∈ requiredVars, (LookupEnv environ n).2 = true) :
    handler_env environ =
      (⟨(LookupEnv environ "DYNAMODB_TABLE_NAME").1, (LookupEnv environ "DYNAMODB_REGION").1,
          (LookupEnv environ "BEDROCK_REGION").1, (LookupEnv environ "BEDROCK_MODEL_ID").1,
          (LookupEnv environ "SNS_TOPIC_ARN").1, (handler_metricsName environ []).1⟩,
        match (handler_metricsName environ []).2 with
        | some err => some err
        | none =>
          if (handler_metricsName environ []).1.length = 0 ∨
              (handler_metricsName environ []).1.length > 5 then
            some (.New "the count of metric names must be between 1 and 5")
          else none) := by
  have h1 := getEnvironmentVariables_set environ "DYNAMODB_TABLE_NAME"
    (hset _ (by simp [requiredVars]))
  have h2 := getEnvironmentVariables_set environ "DYNAMODB_REGION"
    (hset _ (by simp [requiredVars]))
  have h3 := getEnvironmentVariables_set environ "BEDROCK_REGION"
    (hset _ (by simp [requiredVars]))
  have h4 := getEnvironmentVariables_set environ "BEDROCK_MODEL_ID"
    (hset _ (by simp [requiredVars]))
  have h5 := getEnvironmentVariables_set environ "SNS_TOPIC_ARN"
    (hset _ (by simp [requiredVars]))
  unfold handler_env
  simp only [h1, h2, h3, h4, h5]
  rcases h6 : handler_metricsName environ [] with ⟨names, e6⟩
  cases e6 with
  | some err => rfl
  | none =>
    simp only
    split <;> rfl

/-- C1. When the five required variables are set and the number of environment
entries whose key starts with METRICS_NAME_ is 0 or more than 5, handler returns an
error with the empty report text, from its configuration part, and the list of calls
is the one it started with: no SDK, DynamoDB, CloudWatch, Bedrock or SNS call. -/
theorem C1_metric_count_out_of_bounds (w : World) (environ : List String) (h : List Call)
    (hset : ∀ n ∈ requiredVars, (LookupEnv environ n).2 = true)
    (hcount : metricsEntryCount environ = 0 ∨ metricsEntryCount environ > 5) :
    ∃ err, (handler_env environ).2 = some err ∧
      handler w environ h = (.ret ("", some err), h) := by
  have hstop : ∃ err, (handler_env environ).2 = some err := by
    rw [handler_env_set environ hset]
    rcases h6 : handler_metricsName environ [] with ⟨names, e6⟩
    cases e6 with
    | some err => exact ⟨err, rfl⟩
    | none =>
      have hlen := handler_metricsName_length environ [] names h6
      simp only [List.length_nil, Nat.zero_add] at hlen
      refine ⟨.New "the count of metric names must be between 1 and 5", ?_⟩
      have hc : names.length = 0 ∨ names.length > 5 := by omega
      simp only [hc, if_true]
  obtain ⟨err, herr⟩ := hstop
  refine ⟨err, herr, ?_⟩
  unfold handler
  rcases hv : handler_env environ with ⟨ev, e⟩
  rw [hv] at herr
  simp only at herr
  subst herr
  rfl

theorem C1_witness :
    ∃ err, (handler_env sixMetricsEnv).2 = some err ∧
      handler sampleWorld sixMetricsEnv [] = (.ret ("", some err), []) :=
  C1_metric_count_out_of_bounds sampleWorld sixMetricsEnv [] (by decide) (by decide)

/-- C2. When one of DYNAMODB_TABLE_NAME, DYNAMODB_REGION, BEDROCK_REGION,
BEDROCK_MODEL_ID, SNS_TOPIC_ARN is not set, handler returns the empty report text
with the error "missing required environment variable " followed by the first unset
name in that order, and the list of calls is the one it started with. -/
theorem C2_missing_required_variable (w : World) (environ : List String) (h : List Call)
    (hmiss : ∃ n ∈ requiredVars, (LookupEnv environ n).2 = false) :
    ∃ name, requiredVars.find? (fun n => !(LookupEnv environ n).2) = some name ∧
      handler w environ h =
        (.ret ("", some (.New ("missing required environment variable " ++ name))), h) := by
  by_cases b1 : (LookupEnv environ "DYNAMODB_TABLE_NAME").2 = true
  swap
  · have b1 : (LookupEnv environ "DYNAMODB_TABLE_NAME").2 = false := by simpa using b1
    refine ⟨"DYNAMODB_TABLE_NAME", by simp [requiredVars, List.find?, b1], ?_⟩
    simp [handler, handler_env, getEnvironmentVariables_unset _ _ b1]
  by_cases b2 : (LookupEnv environ "DYNAMODB_REGION").2 = true
  swap
  · have b2 : (LookupEnv environ "DYNAMODB_REGION").2 = false := by simpa using b2
    refine ⟨"DYNAMODB_REGION", by simp [requiredVars, List.find?, b1, b2], ?_⟩
    simp [handler, handler_env, getEnvironmentVariables_unset _ _ b2,
      getEnvironmentVariables_set _ _ b1]
  by_cases b3 : (LookupEnv environ "BEDROCK_REGION").2 = true
  swap
  · have b3 : (LookupEnv environ "BEDROCK_REGION").2 = false := by simpa using b3
    refine ⟨"BEDROCK_REGION", by simp [requiredVars, List.find?, b1, b2, b3], ?_⟩
    simp [handler, handler_env, getEnvironmentVariables_unset _ _ b3,
      getEnvironmentVariables_set _ _ b1, getEnvironmentVariables_set _ _ b2]
  by_cases b4 : (LookupEnv environ "BEDROCK_MODEL_ID").2 = true
  swap
  · have b4 : (LookupEnv environ "BEDROCK_MODEL_ID").2 = false := by simpa using b4
    refine ⟨"BEDROCK_MODEL_ID", by simp [requiredVars, List.find?, b1, b2, b3, b4], ?_⟩
    simp [handler, handler_env, getEnvironmentVariables_unset _ _ b4,
      getEnvironmentVariables_set _ _ b1, getEnvironmentVariables_set _ _ b2,
      getEnvironmentVariables_set _ _ b3]
  by_cases b5 : (LookupEnv environ "SNS_TOPIC_ARN").2 = true
  swap
  · have b5 : (LookupEnv environ "SNS_TOPIC_ARN").2 = false := by simpa using b5
    refine ⟨"SNS_TOPIC_ARN", by simp [requiredVars, List.find?, b1, b2, b3, b4, b5], ?_⟩
    simp [handler, handler_env, getEnvironmentVariables_unset _ _ b5,
      getEnvironmentVariables_set _ _ b1, getEnvironmentVariables_set _ _ b2,
      getEnvironmentVariables_set _ _ b3, getEnvironmentVariables_set _ _ b4]
  exfalso
  obtain ⟨n, hn, hf⟩ := hmiss
  simp [requiredVars] at hn
  rcases hn with rfl | rfl | rfl | rfl | rfl <;> simp_all

theorem C2_witness :
    ∃ name, requiredVars.find? (fun n => !(LookupEnv noBedrockRegionEnv n).2) = some name ∧
      handler sampleWorld noBedrockRegionEnv [] =
        (.ret ("", some (.New ("missing required environment variable " ++ name))), []) :=
  C2_missing_required_variable sampleWorld noBedrockRegionEnv []
    ⟨"BEDROCK_REGION", by decide, by decide⟩

/-- C3, the claim as stated fails: the environment `emptyTopicEnv`, in which
SNS_TOPIC_ARN is set to the empty string, is accepted (handler goes on to
ConverseModel, whose first call is made), and the field snsTopicArn of the accepted
configuration is empty. -/
theorem C3_counterexample :
    (∃ ev, handler_env emptyTopicEnv = (ev, none) ∧ ev.snsTopicArn = "") ∧
      (handler sampleWorld emptyTopicEnv []).2.head? = some (.LoadDefaultConfig "us-east-1") := by
  refine ⟨⟨⟨"params", "ap-northeast-1", "us-east-1", "model-1", "", ["alb-requests"]⟩,
    by decide, rfl⟩, by decide⟩

/-- C3, amended. In every configuration that the first part of handler accepts, the
five required variables are set and the five scalar fields hold their values, where
snsTopicArn may be the empty string; every element of metricsName is non-empty, and
metricsName has between 1 and 5 elements. -/
theorem C3_accepted_configuration (environ : List String) (ev : envValues)
    (hr : handler_env environ = (ev, none)) :
    LookupEnv environ "DYNAMODB_TABLE_NAME" = (ev.dynamoDbTableName, true) ∧
    LookupEnv environ "DYNAMODB_REGION" = (ev.dynamoDbRegion, true) ∧
    LookupEnv environ "BEDROCK_REGION" = (ev.bedrockRegion, true) ∧
    LookupEnv environ "BEDROCK_MODEL_ID" = (ev.bedrockModelId, true) ∧
    LookupEnv environ "SNS_TOPIC_ARN" = (ev.snsTopicArn, true) ∧
    (∀ m ∈ ev.metricsName, m ≠ "") ∧
    1 ≤ ev.metricsName.length ∧ ev.metricsName.length ≤ 5 := by
  obtain ⟨h1, h2, h3, h4, h5, h6, h7, h8⟩ := handler_env_none environ ev hr
  exact ⟨h1, h2, h3, h4, h5,
    handler_metricsName_ne_empty environ [] _ h6 (by simp), h7, h8⟩

theorem C3_witness :
    LookupEnv twoMetricsEnv "DYNAMODB_TABLE_NAME" = (twoMetricsEv.dynamoDbTableName, true) ∧
    LookupEnv twoMetricsEnv "DYNAMODB_REGION" = (twoMetricsEv.dynamoDbRegion, true) ∧
    LookupEnv twoMetricsEnv "BEDROCK_REGION" = (twoMetricsEv.bedrockRegion, true) ∧
    LookupEnv twoMetricsEnv "BEDROCK_MODEL_ID" = (twoMetricsEv.bedrockModelId, true) ∧
    LookupEnv twoMetricsEnv "SNS_TOPIC_ARN" = (twoMetricsEv.snsTopicArn, true) ∧
    (∀ m ∈ twoMetricsEv.metricsName, m ≠ "") ∧
    1 ≤ twoMetricsEv.metricsName.length ∧ twoMetricsEv.metricsName.length ≤ 5 :=
  C3_accepted_configuration twoMetricsEnv twoMetricsEv (by decide)

/-- C4. When snsTopicArn is empty or equal to "none" under case folding,
SendMessageSns returns the nil error and makes no call at all, for every report
text; so handler, after a ConverseModel that returned the text with no error,
returns that text with no error and makes no further call. -/
theorem C4_sns_disabled (w : World) (ev : envValues) (desc : String) (h : List Call)
    (hoff : ev.snsTopicArn = "" ∨ EqualFold ev.snsTopicArn "none" = true) :
    SendMessageSns w ev desc h = (none, h) ∧
      ∀ environ h0, handler_env environ = (ev, none) →
        ConverseModel w ev h0 = (.ret (desc, none), h) →
        handler w environ h0 = (.ret (desc, none), h) := by
  have hsend : SendMessageSns w ev desc h = (none, h) := by
    unfold SendMessageSns
    rw [if_pos hoff]
  refine ⟨hsend, ?_⟩
  intro environ h0 henv hconv
  unfold handler
  rw [henv]
  simp only [hconv, hsend]

theorem C4_witness :
    SendMessageSns sampleWorld { twoMetricsEv with snsTopicArn := "NoNe" } "no abnormality"
        [.Converse "us-east-1" (ConverseModel_input twoMetricsEv [])] =
      (none, [.Converse "us-east-1" (ConverseModel_input twoMetricsEv [])]) ∧
      ∀ environ h0, handler_env environ = ({ twoMetricsEv with snsTopicArn := "NoNe" }, none) →
        ConverseModel sampleWorld { twoMetricsEv with snsTopicArn := "NoNe" } h0 =
          (.ret ("no abnormality", none),
            [.Converse "us-east-1" (ConverseModel_input twoMetricsEv [])]) →
        handler sampleWorld environ h0 =
          (.ret ("no abnormality", none),
            [.Converse "us-east-1" (ConverseModel_input twoMetricsEv [])]) :=
  C4_sns_disabled sampleWorld { twoMetricsEv with snsTopicArn := "NoNe" } "no abnormality"
    [.Converse "us-east-1" (ConverseModel_input twoMetricsEv [])] (Or.inr (by decide))

/-! ### The tabular document -/

theorem digitChar_mem_fieldChars : ∀ d, d < 10 → Nat.digitChar d ∈ fieldChars := by
  decide

theorem toDigitsCore_mem_fieldChars (fuel : Nat) :
    ∀ n acc, (∀ c ∈ acc, c ∈ fieldChars) →
      ∀ c ∈ Nat.toDigitsCore 10 fuel n acc, c ∈ fieldChars := by
  induction fuel with
  | zero =>
    intro n acc hacc c hc
    simpa [Nat.toDigitsCore] using hacc c (by simpa [Nat.toDigitsCore] using hc)
  | succ fuel ih =>
    intro n acc hacc c hc
    have hd : Nat.digitChar (n % 10) ∈ fieldChars :=
      digitChar_mem_fieldChars _ (Nat.mod_lt _ (by decide))
    have hacc1 : ∀ c ∈ Nat.digitChar (n % 10) :: acc, c ∈ fieldChars := by
      intro c hc
      rcases List.mem_cons.mp hc with rfl | hc
      · exact hd
      · exact hacc c hc
    unfold Nat.toDigitsCore at hc
    simp only at hc
    split at hc
    · exact hacc1 c hc
    · exact ih _ _ hacc1 c hc

theorem appendInt_mem_fieldChars (x : Int) (width : Nat) :
    ∀ c ∈ appendInt x width, c ∈ fieldChars := by
  intro c hc
  unfold appendInt at hc
  rcases List.mem_append.mp hc with hc | hc
  · rcases List.mem_append.mp hc with hc | hc
    · split at hc
      · simp at hc
        subst hc
        decide
      · simp at hc
    · have := (List.mem_replicate.mp hc).2
      subst this
      decide
  · exact toDigitsCore_mem_fieldChars _ _ _ (by simp) c hc

theorem FormatRFC3339_mem_fieldChars (offset : Int) (t : Time) :
    ∀ c ∈ (FormatRFC3339 offset t).data, c ∈ fieldChars := by
  intro c hc
  unfold FormatRFC3339 at hc
  simp only [List.mem_append, List.mem_singleton] at hc
  have hT : 'T' ∈ fieldChars := by decide
  have hZ : 'Z' ∈ fieldChars := by decide
  have hm : '-' ∈ fieldChars := by decide
  have hp : '+' ∈ fieldChars := by decide
  have hcol : ':' ∈ fieldChars := by decide
  rcases hc with hc | hc
  · rcases hc with
      (((((((((((hc | hc) | hc) | hc) | hc) | hc) | hc) | hc) | hc) | hc) | hc))
    all_goals first
      | exact appendInt_mem_fieldChars _ _ c hc
      | (subst hc; assumption)
  · split at hc
    · simp at hc
      subst hc
      exact hZ
    · simp only [List.mem_append, List.mem_singleton] at hc
      rcases hc with ((hc | hc) | hc) | hc
      · split at hc
        · simp at hc
          subst hc
          exact hm
        · simp at hc
          subst hc
          exact hp
      · exact appendInt_mem_fieldChars _ _ c hc
      · subst hc
        exact hcol
      · exact appendInt_mem_fieldChars _ _ c hc

theorem fieldNeedsQuotes_of_fieldChars (field : List Char)
    (hf : ∀ c ∈ field, c ∈ fieldChars) : fieldNeedsQuotes field = false := by
  have hspecial : ∀ c ∈ fieldChars,
      (decide (c = '\n') || decide (c = '\r') || decide (c = '"') || decide (c = ',')) = false := by
    decide
  have hspace : ∀ c ∈ fieldChars, IsSpace c = false := by decide
  have hback : '\\' ∉ fieldChars := by decide
  cases field with
  | nil => rfl
  | cons r1 rest =>
    unfold fieldNeedsQuotes
    have h1 : ¬ (r1 :: rest = ['\\', '.']) := by
      intro he
      have : r1 = '\\' := by
        injection he
      exact hback (this ▸ hf r1 (List.mem_cons_self _ _))
    have h2 : (r1 :: rest).any
        (fun c => decide (c = '\n') || decide (c = '\r') || decide (c = '"') || decide (c = ',')) = false := by
      rw [List.any_eq_false]
      intro c hc
      simpa using hspecial c (hf c hc)
    simp only [h1, h2, if_false, Bool.false_eq_true]
    exact hspace r1 (hf r1 (List.mem_cons_self _ _))

theorem not_special_of_fieldNeedsQuotes (field : List Char)
    (hq : fieldNeedsQuotes field = false) :
    ∀ c ∈ field, c ≠ ',' ∧ c ≠ '\n' ∧ c ≠ '"' := by
  cases field with
  | nil => simp
  | cons r1 rest =>
    simp only [fieldNeedsQuotes] at hq
    split at hq
    · simp at hq
    · split at hq
      · simp at hq
      · rename_i hany
        simp only [Bool.not_eq_true] at hany
        rw [List.any_eq_false] at hany
        intro c hc
        have := hany c hc
        simp at this
        exact ⟨this.2, this.1.1.1, this.1.2⟩

theorem splitOnChar_ne_nil (sep : Char) (l : List Char) : splitOnChar sep l ≠ [] := by
  cases l with
  | nil => simp [splitOnChar]
  | cons c cs =>
    unfold splitOnChar
    split
    · simp
    · split <;> simp

theorem splitOnChar_of_not_mem (sep : Char) (a : List Char) (ha : sep ∉ a) :
    splitOnChar sep a = [a] := by
  induction a with
  | nil => rfl
  | cons c cs ih =>
    have hc : c ≠ sep := fun he => ha (he ▸ List.mem_cons_self _ _)
    have hcs : sep ∉ cs := fun hm => ha (List.mem_cons_of_mem _ hm)
    simp [splitOnChar, hc, ih hcs]

theorem splitOnChar_append (sep : Char) (a b : List Char) (ha : sep ∉ a) :
    splitOnChar sep (a ++ sep :: b) = a :: splitOnChar sep b := by
  induction a with
  | nil => simp [splitOnChar]
  | cons c cs ih =>
    have hc : c ≠ sep := fun he => ha (he ▸ List.mem_cons_self _ _)
    have hcs : sep ∉ cs := fun hm => ha (List.mem_cons_of_mem _ hm)
    simp [splitOnChar, hc, ih hcs]

theorem writeFields_two (a b : String) (ha : fieldNeedsQuotes a.data = false)
    (hb : fieldNeedsQuotes b.data = false) :
    csvWrite [a, b] = a.data ++ ',' :: b.data ++ ['\n'] := by
  simp [csvWrite, writeFields, ha, hb]

/-- A document written from records of two fields that need no quotes: its text, and
what reading it back gives. -/
theorem csv_of_pairs (pairs : List (String × String))
    (hp : ∀ p ∈ pairs, fieldNeedsQuotes p.1.data = false ∧ fieldNeedsQuotes p.2.data = false) :
    (pairs.map (fun p => [p.1, p.2])).flatMap csvWrite =
        pairs.flatMap (fun p => p.1.data ++ ',' :: p.2.data ++ ['\n']) ∧
      splitOnChar '\n' ((pairs.map (fun p => [p.1, p.2])).flatMap csvWrite) =
        pairs.map (fun p => p.1.data ++ ',' :: p.2.data) ++ [[]] ∧
      ((pairs.map (fun p => [p.1, p.2])).flatMap csvWrite).count '\n' = pairs.length ∧
      '"' ∉ (pairs.map (fun p => [p.1, p.2])).flatMap csvWrite := by
  induction pairs with
  | nil => simp [splitOnChar]
  | cons p ps ih =>
    have hp1 := hp p (List.mem_cons_self _ _)
    obtain ⟨ih1, ih2, ih3, ih4⟩ := ih (fun q hq => hp q (List.mem_cons_of_mem _ hq))
    have ha := not_special_of_fieldNeedsQuotes _ hp1.1
    have hb := not_special_of_fieldNeedsQuotes _ hp1.2
    have hw := writeFields_two p.1 p.2 hp1.1 hp1.2
    have hnl : '\n' ∉ p.1.data ++ ',' :: p.2.data := by
      intro hm
      rcases List.mem_append.mp hm with hm | hm
      · exact (ha _ hm).2.1 rfl
      · rcases List.mem_cons.mp hm with hm | hm
        · exact absurd hm (by decide)
        · exact (hb _ hm).2.1 rfl
    have hq : '"' ∉ p.1.data ++ ',' :: p.2.data ++ ['\n'] := by
      intro hm
      rcases List.mem_append.mp hm with hm | hm
      · rcases List.mem_append.mp hm with hm | hm
        · exact (ha _ hm).2.2 rfl
        · rcases List.mem_cons.mp hm with hm | hm
          · exact absurd hm (by decide)
          · exact (hb _ hm).2.2 rfl
      · simp at hm
    have hcount : (p.1.data ++ ',' :: p.2.data).count '\n' = 0 :=
      List.count_eq_zero.mpr hnl
    refine ⟨?_, ?_, ?_, ?_⟩
    · simp only [List.map_cons, List.flatMap_cons, hw, ih1]
    · simp only [List.map_cons, List.flatMap_cons, hw, List.append_assoc, List.cons_append,
        List.nil_append]
      have h3 := splitOnChar_append '\n' (p.1.data ++ ',' :: p.2.data)
        ((ps.map (fun p => [p.1, p.2])).flatMap csvWrite) hnl
      simp only [List.append_assoc, List.cons_append] at h3
      rw [h3, ih2]
    · rw [List.map_cons, List.flatMap_cons, hw, List.count_append, List.count_append, hcount,
        ih3, List.length_cons]
      have h5 : ['\n'].count '\n' = 1 := by decide
      omega
    · intro hm
      rw [List.map_cons, List.flatMap_cons, hw] at hm
      rcases List.mem_append.mp hm with hm | hm
      · exact hq hm
      · exact ih4 hm

theorem csvRowsOf_pairs (pairs : List (String × String))
    (hp : ∀ p ∈ pairs, fieldNeedsQuotes p.1.data = false ∧ fieldNeedsQuotes p.2.data = false) :
    csvRowsOf (String.mk ((pairs.map (fun p => [p.1, p.2])).flatMap csvWrite)) =
      pairs.map (fun p => [p.1, p.2]) := by
  unfold csvRowsOf
  rw [(csv_of_pairs pairs hp).2.1, List.dropLast_concat, List.map_map]
  apply List.map_congr_left
  intro p hmem
  have ha := not_special_of_fieldNeedsQuotes _ (hp p hmem).1
  have hb := not_special_of_fieldNeedsQuotes _ (hp p hmem).2
  have h1 : ',' ∉ p.1.data := fun hm => (ha _ hm).1 rfl
  have h2 : ',' ∉ p.2.data := fun hm => (hb _ hm).1 rfl
  simp [splitOnChar_append ',' _ _ h1, splitOnChar_of_not_mem ',' _ h2]

theorem csvWrite_getLast (records : List (List String)) (hne : records ≠ []) :
    (records.flatMap csvWrite).getLast? = some '\n' := by
  induction records with
  | nil => exact absurd rfl hne
  | cons r rs ih =>
    cases rs with
    | nil => simp [csvWrite]
    | cons r1 rs =>
      have := ih (by simp)
      rw [List.flatMap_cons, List.getLast?_append, this]
      rfl

theorem csvRecords_eq (w : World) :
    ∀ ts vs, ts.length = vs.length →
      csvRecords w ts vs =
        .ret ((ts.zip vs).map (fun tv => [FormatRFC3339 (9 * 60 * 60) tv.1, w.FormatFloat tv.2])) := by
  intro ts
  induction ts with
  | nil =>
    intro vs _
    simp [csvRecords]
  | cons t ts ih =>
    intro vs hlen
    cases vs with
    | nil => simp at hlen
    | cons v vs =>
      simp only [List.length_cons, Nat.add_right_cancel_iff] at hlen
      simp [csvRecords, ih vs hlen]

/-- C5. When the query part of GetSimpleMetricsData got a response whose first
result holds N timestamps and N values, GetSimpleMetricsData returns, with no error,
the document made of the line `timestamp,value` and, for every sample in order, the
line of its timestamp in RFC 3339 at UTC+9, a comma and its value, each line ended
by a newline. Read back, the document has N+1 rows, the first `timestamp`, `value`
and row i+1 the two fields of sample i; it holds N+1 newlines, ends with one, and
holds no quote. The
`%v` text of a float64 is taken to consist of digits, sign, point, `e`, `Inf`, `NaN`. -/
theorem C5_csv_document (w : World) (pKeyName : String) (ev : envValues) (h h1 : List Call)
    (resMetrics : GetMetricDataOutput) (r : MetricDataResult) (rest : List MetricDataResult)
    (N : Nat)
    (hfloat : ∀ x, ∀ c ∈ (w.FormatFloat x).data, c ∈ fieldChars)
    (hquery : GetSimpleMetricsData_query w pKeyName ev h = (.ok resMetrics, h1))
    (hfirst : resMetrics.MetricDataResults = r :: rest)
    (hT : r.Timestamps.length = N) (hV : r.Values.length = N) :
    ∃ doc, GetSimpleMetricsData w pKeyName ev h = (.ret (doc, none), h1) ∧
      doc.data = "timestamp,value\n".data ++
        (r.Timestamps.zip r.Values).flatMap (fun tv =>
          (FormatRFC3339 (9 * 60 * 60) tv.1).data ++ ',' :: (w.FormatFloat tv.2).data ++ ['\n']) ∧
      csvRowsOf doc = ["timestamp", "value"] ::
        (r.Timestamps.zip r.Values).map (fun tv =>
          [FormatRFC3339 (9 * 60 * 60) tv.1, w.FormatFloat tv.2]) ∧
      (csvRowsOf doc).length = N + 1 ∧
      doc.data.count '\n' = N + 1 ∧
      doc.data.getLast? = some '\n' ∧
      '"' ∉ doc.data := by
  have hrec := csvRecords_eq w r.Timestamps r.Values (hT.trans hV.symm)
  have hzip : (r.Timestamps.zip r.Values).length = N := by
    simp [List.length_zip, hT, hV]
  let pairs : List (String × String) := ("timestamp", "value") ::
    (r.Timestamps.zip r.Values).map (fun tv =>
      (FormatRFC3339 (9 * 60 * 60) tv.1, w.FormatFloat tv.2))
  have hpairs : ∀ p ∈ pairs,
      fieldNeedsQuotes p.1.data = false ∧ fieldNeedsQuotes p.2.data = false := by
    intro p hmem
    rcases List.mem_cons.mp hmem with rfl | hmem
    · exact ⟨by decide, by decide⟩
    · obtain ⟨tv, _, rfl⟩ := List.mem_map.mp hmem
      exact ⟨fieldNeedsQuotes_of_fieldChars _ (FormatRFC3339_mem_fieldChars _ _),
        fieldNeedsQuotes_of_fieldChars _ (hfloat _)⟩
  have hrows : (["timestamp", "value"] ::
      (r.Timestamps.zip r.Values).map (fun tv =>
        [FormatRFC3339 (9 * 60 * 60) tv.1, w.FormatFloat tv.2])) =
      pairs.map (fun p => [p.1, p.2]) := by
    simp [pairs, List.map_map, Function.comp_def]
  have hdoc : GetSimpleMetricsData w pKeyName ev h =
      (.ret (String.mk ((pairs.map (fun p => [p.1, p.2])).flatMap csvWrite), none), h1) := by
    unfold GetSimpleMetricsData
    rw [hquery]
    simp only [GetSimpleMetricsData_csv, hfirst, hrec, hrows]
  obtain ⟨c1, _, c3, c4⟩ := csv_of_pairs pairs hpairs
  refine ⟨_, hdoc, ?_, ?_, ?_, ?_, ?_, ?_⟩
  · simp only [c1]
    simp [pairs, List.flatMap_map]
  · rw [csvRowsOf_pairs pairs hpairs, hrows]
  · rw [csvRowsOf_pairs pairs hpairs]
    simp [pairs, hzip]
  · simp only [c3]
    simp [pairs, hzip]
  · exact csvWrite_getLast _ (by simp [pairs])
  · exact c4

/-! ### Calls made by the fetch of one metric -/

theorem drop_length_append (h s : List Call) : (h ++ s).drop h.length = s := by
  simp

theorem GetParamsFromDynamoDb_calls (w : World) (pKeyName : String) (ev : envValues)
    (h : List Call) :
    ∃ s, (GetParamsFromDynamoDb w pKeyName ev h).2 = h ++ s ∧
      ∀ c ∈ s, c.isConverse = false ∧ c.isPublish = false := by
  unfold GetParamsFromDynamoDb
  split
  · exact ⟨[_], rfl, by simp [Call.isConverse, Call.isPublish]⟩
  · dsimp only
    split
    · exact ⟨[_, _], by rw [List.append_assoc]; rfl, by simp [Call.isConverse, Call.isPublish]⟩
    · exact ⟨[_, _], by rw [List.append_assoc]; rfl, by simp [Call.isConverse, Call.isPublish]⟩

theorem GetSimpleMetricsData_query_calls (w : World) (pKeyName : String) (ev : envValues)
    (h : List Call) :
    ∃ s, (GetSimpleMetricsData_query w pKeyName ev h).2 = h ++ s ∧
      ∀ c ∈ s, c.isConverse = false ∧ c.isPublish = false := by
  obtain ⟨s, hs, hc⟩ :=
    GetParamsFromDynamoDb_calls w pKeyName ev (h ++ [.LoadDefaultConfig ev.dynamoDbRegion])
  have hs1 : ∀ c ∈ Call.LoadDefaultConfig ev.dynamoDbRegion :: s,
      c.isConverse = false ∧ c.isPublish = false := by
    intro c hmem
    rcases List.mem_cons.mp hmem with rfl | hmem
    · simp [Call.isConverse, Call.isPublish]
    · exact hc c hmem
  have hs2 : ∀ q, ∀ c ∈ Call.LoadDefaultConfig ev.dynamoDbRegion :: (s ++ [Call.GetMetricData ev.dynamoDbRegion q]),
      c.isConverse = false ∧ c.isPublish = false := by
    intro q c hmem
    rcases List.mem_cons.mp hmem with rfl | hmem
    · simp [Call.isConverse, Call.isPublish]
    · rcases List.mem_append.mp hmem with hmem | hmem
      · exact hc c hmem
      · simp at hmem
        subst hmem
        simp [Call.isConverse, Call.isPublish]
  unfold GetSimpleMetricsData_query
  split
  · exact ⟨[_], rfl, by simp [Call.isConverse, Call.isPublish]⟩
  · rcases hp : GetParamsFromDynamoDb w pKeyName ev
      (h ++ [.LoadDefaultConfig ev.dynamoDbRegion]) with ⟨⟨params, e⟩, h2⟩
    rw [hp] at hs
    simp only at hs
    subst hs
    rw [hp]
    cases e with
    | some err => exact ⟨_ :: s, by simp only [List.append_assoc]; rfl, hs1⟩
    | none =>
      dsimp only
      split
      · exact ⟨_ :: s, by simp only [List.append_assoc]; rfl, hs1⟩
      · split
        · exact ⟨_ :: s, by simp only [List.append_assoc]; rfl, hs1⟩
        · split
          · exact ⟨_ :: s, by simp only [List.append_assoc]; rfl, hs1⟩
          · split
            · exact ⟨_ :: (s ++ [_]), by simp only [List.append_assoc]; rfl, hs2 _⟩
            · exact ⟨_ :: (s ++ [_]), by simp only [List.append_assoc]; rfl, hs2 _⟩

theorem GetSimpleMetricsData_snd (w : World) (pKeyName : String) (ev : envValues)
    (h : List Call) :
    (GetSimpleMetricsData w pKeyName ev h).2 = (GetSimpleMetricsData_query w pKeyName ev h).2 := by
  unfold GetSimpleMetricsData
  rcases GetSimpleMetricsData_query w pKeyName ev h with ⟨r, h1⟩
  cases r with
  | error err => rfl
  | ok res =>
    simp only
    split <;> rfl

theorem GetSimpleMetricsData_calls (w : World) (pKeyName : String) (ev : envValues)
    (h : List Call) :
    ∃ s, (GetSimpleMetricsData w pKeyName ev h).2 = h ++ s ∧
      ∀ c ∈ s, c.isConverse = false ∧ c.isPublish = false := by
  rw [GetSimpleMetricsData_snd]
  exact GetSimpleMetricsData_query_calls w pKeyName ev h

theorem FetchesSucceed_calls (w : World) (ev : envValues) :
    ∀ names h docs h1, FetchesSucceed w ev names h docs h1 →
      docs.length = names.length ∧
      ∃ s, h1 = h ++ s ∧ ∀ c ∈ s, c.isConverse = false ∧ c.isPublish = false := by
  intro names
  induction names with
  | nil =>
    intro h docs h1 hf
    cases docs with
    | nil =>
      simp only [FetchesSucceed] at hf
      exact ⟨rfl, [], by simp [hf], by simp⟩
    | cons d ds => simp [FetchesSucceed] at hf
  | cons m ms ih =>
    intro h docs h1 hf
    cases docs with
    | nil => simp [FetchesSucceed] at hf
    | cons d ds =>
      simp only [FetchesSucceed] at hf
      obtain ⟨s, hs, hc⟩ := GetSimpleMetricsData_calls w m ev h
      obtain ⟨hlen, s1, hs1, hc1⟩ := ih _ _ _ hf.2
      refine ⟨by simp [hlen], s ++ s1, by rw [hs1, hs, List.append_assoc], ?_⟩
      intro c hmem
      rcases List.mem_append.mp hmem with hmem | hmem
      · exact hc c hmem
      · exact hc1 c hmem

theorem ConverseModel_fetch_of_succeed (w : World) (ev : envValues) :
    ∀ names h docs h1, FetchesSucceed w ev names h docs h1 →
      ∀ acc, ConverseModel_fetch w ev names acc h = (.ret (acc ++ docs, none), h1) := by
  intro names
  induction names with
  | nil =>
    intro h docs h1 hf acc
    cases docs with
    | nil =>
      simp only [FetchesSucceed] at hf
      simp [ConverseModel_fetch, hf]
    | cons d ds => simp [FetchesSucceed] at hf
  | cons m ms ih =>
    intro h docs h1 hf acc
    cases docs with
    | nil => simp [FetchesSucceed] at hf
    | cons d ds =>
      simp only [FetchesSucceed] at hf
      unfold ConverseModel_fetch
      rcases hg : GetSimpleMetricsData w m ev h with ⟨r, h2⟩
      rw [hg] at hf
      simp only at hf
      rw [hf.1]
      simp only
      rw [ih _ _ _ hf.2]
      simp

theorem ConverseModel_content_length :
    ∀ names docs : List String, docs.length = names.length →
      (ConverseModel_content names docs).length = 2 * names.length := by
  intro names
  induction names with
  | nil =>
    intro docs _
    simp [ConverseModel_content]
  | cons m ms ih =>
    intro docs hlen
    cases docs with
    | nil => simp at hlen
    | cons d ds =>
      simp only [List.length_cons, Nat.add_right_cancel_iff] at hlen
      simp [ConverseModel_content, ih ds hlen]
      omega

theorem ConverseModel_content_get :
    ∀ (names docs : List String) (i : Nat) (m d : String),
      names[i]? = some m → docs[i]? = some d →
      (ConverseModel_content names docs)[2 * i]? =
          some (.Text ("This document contains " ++ m)) ∧
        (ConverseModel_content names docs)[2 * i + 1]? =
          some (.Document { Format := "csv", Name := m, Source := .Bytes d }) := by
  intro names
  induction names with
  | nil =>
    intro docs i m d hm _
    simp at hm
  | cons n ns ih =>
    intro docs i m d hm hd
    cases docs with
    | nil => simp at hd
    | cons x xs =>
      cases i with
      | zero =>
        simp at hm hd
        subst hm
        subst hd
        simp [ConverseModel_content, DocumentFormatCsv]
      | succ j =>
        simp only [List.getElem?_cons_succ] at hm hd
        have := ih xs j m d hm hd
        have e1 : 2 * (j + 1) = (2 * j + 1) + 1 := by omega
        have e2 : 2 * (j + 1) + 1 = (2 * j + 1 + 1) + 1 := by omega
        simp only [ConverseModel_content, e1, e2, List.getElem?_cons_succ]
        exact this

theorem sampleWorld_FormatFloat (x : Float64) :
    ∀ c ∈ (sampleWorld.FormatFloat x).data, c ∈ fieldChars := by
  simp only [sampleWorld]
  split
  · decide
  · split <;> decide

theorem C5_witness :
    ∃ doc, GetSimpleMetricsData sampleWorld "alb-requests" twoMetricsEv [] =
        (.ret (doc, none), sampleFetchCalls "alb-requests") ∧
      doc.data = "timestamp,value\n".data ++
        (sampleResult.Timestamps.zip sampleResult.Values).flatMap (fun tv =>
          (FormatRFC3339 (9 * 60 * 60) tv.1).data ++ ',' ::
            (sampleWorld.FormatFloat tv.2).data ++ ['\n']) ∧
      csvRowsOf doc = ["timestamp", "value"] ::
        (sampleResult.Timestamps.zip sampleResult.Values).map (fun tv =>
          [FormatRFC3339 (9 * 60 * 60) tv.1, sampleWorld.FormatFloat tv.2]) ∧
      (csvRowsOf doc).length = 2 + 1 ∧
      doc.data.count '\n' = 2 + 1 ∧
      doc.data.getLast? = some '\n' ∧
      '"' ∉ doc.data :=
  C5_csv_document sampleWorld "alb-requests" twoMetricsEv [] (sampleFetchCalls "alb-requests")
    ⟨[sampleResult]⟩ sampleResult [] 2 sampleWorld_FormatFloat (by rfl) rfl rfl rfl

/-- C6. When ConverseModel has loaded its SDK configuration and every fetch succeeds,
with the documents docs, it makes one inference call, the last call of the run and
the only inference call among the calls it adds; the input of that call holds
exactly one message, of role user, whose content has 2k blocks for k metric
identifiers: block 2i is the text "This document contains " followed by identifier
i, block 2i+1 is the CSV document named after identifier i with the bytes of
document i. -/
theorem C6_user_message (w : World) (ev : envValues) (h : List Call) (docs : List String)
    (h1 : List Call)
    (hload : w.LoadDefaultConfig h ev.bedrockRegion = none)
    (hfetch : FetchesSucceed w ev ev.metricsName
      (h ++ [.LoadDefaultConfig ev.bedrockRegion]) docs h1) :
    ∃ blocks input,
      (ConverseModel w ev h).2 = h1 ++ [.Converse ev.bedrockRegion input] ∧
      (newCalls h (ConverseModel w ev h).2).filter Call.isConverse =
        [.Converse ev.bedrockRegion input] ∧
      input.Messages = [{ Role := "user", Content := blocks }] ∧
      docs.length = ev.metricsName.length ∧
      blocks.length = 2 * ev.metricsName.length ∧
      ∀ i m d, ev.metricsName[i]? = some m → docs[i]? = some d →
        blocks[2 * i]? = some (.Text ("This document contains " ++ m)) ∧
        blocks[2 * i + 1]? =
          some (.Document { Format := "csv", Name := m, Source := .Bytes d }) := by
  have hf := ConverseModel_fetch_of_succeed w ev _ _ _ _ hfetch []
  obtain ⟨hlen, s, hs, hc⟩ := FetchesSucceed_calls w ev _ _ _ _ hfetch
  have hrun : (ConverseModel w ev h).2 =
      h1 ++ [.Converse ev.bedrockRegion (ConverseModel_input ev docs)] := by
    unfold ConverseModel
    rw [hload]
    simp only [hf, List.nil_append]
    split
    · rfl
    · split <;> rfl
  refine ⟨ConverseModel_content ev.metricsName docs, ConverseModel_input ev docs, hrun, ?_,
    rfl, hlen, ConverseModel_content_length _ _ hlen, ?_⟩
  · rw [hrun, hs]
    have hnone : s.filter Call.isConverse = [] := by
      rw [List.filter_eq_nil_iff]
      intro c hmem
      simp [(hc c hmem).1]
    simp only [newCalls, List.append_assoc, drop_length_append]
    simp [List.filter_append, hnone, List.filter_cons, Call.isConverse]
  · intro i m d hm hd
    exact ConverseModel_content_get _ _ i m d hm hd

theorem C6_witness :
    ∃ blocks input,
      (ConverseModel sampleWorld twoMetricsEv []).2 =
        ([.LoadDefaultConfig "us-east-1"] ++ sampleFetchCalls "alb-requests" ++
          sampleFetchCalls "aurora-select") ++ [.Converse twoMetricsEv.bedrockRegion input] ∧
      (newCalls [] (ConverseModel sampleWorld twoMetricsEv []).2).filter Call.isConverse =
        [.Converse twoMetricsEv.bedrockRegion input] ∧
      input.Messages = [{ Role := "user", Content := blocks }] ∧
      [sampleDoc, sampleDoc].length = twoMetricsEv.metricsName.length ∧
      blocks.length = 2 * twoMetricsEv.metricsName.length ∧
      ∀ i m d, twoMetricsEv.metricsName[i]? = some m → [sampleDoc, sampleDoc][i]? = some d →
        blocks[2 * i]? = some (.Text ("This document contains " ++ m)) ∧
        blocks[2 * i + 1]? =
          some (.Document { Format := "csv", Name := m, Source := .Bytes d }) :=
  C6_user_message sampleWorld twoMetricsEv [] [sampleDoc, sampleDoc]
    ([.LoadDefaultConfig "us-east-1"] ++ sampleFetchCalls "alb-requests" ++
      sampleFetchCalls "aurora-select") rfl (by
        refine ⟨rfl, rfl, ?_⟩
        show _ = _
        rfl)

/-! ### Failure of a fetch -/

theorem GetSimpleMetricsData_query_of_fails (w : World) (pKeyName : String) (ev : envValues)
    (h : List Call) (err : GoError) (h2 : List Call)
    (hfail : FetchFails w pKeyName ev h err h2) :
    GetSimpleMetricsData_query w pKeyName ev h = (.error err, h2) := by
  unfold GetSimpleMetricsData_query
  cases hfail with
  | sdkConfig _ hl => rw [hl]
  | lookup m _ _ hl hp => rw [hl]; simp only [hp]
  | dateRange params _ n _ hl hp ha => rw [hl]; simp only [hp, ha]
  | dimensions params _ n _ hl hp ha hu => rw [hl]; simp only [hp, ha, hu]
  | period params _ n dims p _ hl hp ha hu hi => rw [hl]; simp only [hp, ha, hu, hi]
  | query params h2 n dims p _ hl hp ha hu hi hq => rw [hl]; simp only [hp, ha, hu, hi, hq]

theorem FetchFails_of_query_error (w : World) (pKeyName : String) (ev : envValues)
    (h : List Call) (err : GoError) (h2 : List Call)
    (hq : GetSimpleMetricsData_query w pKeyName ev h = (.error err, h2)) :
    FetchFails w pKeyName ev h err h2 := by
  unfold GetSimpleMetricsData_query at hq
  cases hl : w.LoadDefaultConfig h ev.dynamoDbRegion with
  | some e =>
    rw [hl] at hq
    simp only [Prod.mk.injEq, Except.error.injEq] at hq
    obtain ⟨rfl, rfl⟩ := hq
    exact .sdkConfig _ hl
  | none =>
    rw [hl] at hq
    rcases hp : GetParamsFromDynamoDb w pKeyName ev
      (h ++ [.LoadDefaultConfig ev.dynamoDbRegion]) with ⟨⟨params, e⟩, h3⟩
    rw [hp] at hq
    cases e with
    | some e =>
      simp only [Prod.mk.injEq, Except.error.injEq] at hq
      obtain ⟨rfl, rfl⟩ := hq
      exact .lookup _ _ _ hl hp
    | none =>
      dsimp only at hq
      rcases ha : Atoi (mapIndex params "dateRange") with ⟨n, e⟩
      rw [ha] at hq
      cases e with
      | some e =>
        simp only [Prod.mk.injEq, Except.error.injEq] at hq
        obtain ⟨rfl, rfl⟩ := hq
        exact .dateRange _ _ _ _ hl hp ha
      | none =>
        dsimp only at hq
        cases hu : w.Unmarshal (mapIndex params "dimensions") with
        | error e =>
          rw [hu] at hq
          simp only [Prod.mk.injEq, Except.error.injEq] at hq
          obtain ⟨rfl, rfl⟩ := hq
          exact .dimensions _ _ _ _ hl hp ha hu
        | ok dims =>
          rw [hu] at hq
          dsimp only at hq
          rcases hi : ParseInt (mapIndex params "period") 32 with ⟨p, e⟩
          rw [hi] at hq
          cases e with
          | some e =>
            simp only [Prod.mk.injEq, Except.error.injEq] at hq
            obtain ⟨rfl, rfl⟩ := hq
            exact .period _ _ _ _ _ _ hl hp ha hu hi
          | none =>
            dsimp only at hq
            cases hg : w.GetMetricData h3 ev.dynamoDbRegion
                (GetSimpleMetricsData_input w params (w.Now h3) n dims p) with
            | error e =>
              rw [hg] at hq
              simp only [Prod.mk.injEq, Except.error.injEq] at hq
              obtain ⟨rfl, rfl⟩ := hq
              exact .query _ _ _ _ _ _ hl hp ha hu hi hg
            | ok res =>
              rw [hg] at hq
              simp at hq

theorem ConverseModel_fetch_stops (w : World) (ev : envValues) (m : String)
    (post : List String) (err : GoError) (h2 : List Call) :
    ∀ pre h docs h1, FetchesSucceed w ev pre h docs h1 →
      GetSimpleMetricsData w m ev h1 = (.ret ("", some err), h2) →
      ∀ acc, ConverseModel_fetch w ev (pre ++ m :: post) acc h =
        (.ret (acc ++ docs, some err), h2) := by
  intro pre
  induction pre with
  | nil =>
    intro h docs h1 hf hg acc
    cases docs with
    | nil =>
      simp only [FetchesSucceed] at hf
      subst hf
      simp [ConverseModel_fetch, hg]
    | cons d ds => simp [FetchesSucceed] at hf
  | cons n ns ih =>
    intro h docs h1 hf hg acc
    cases docs with
    | nil => simp [FetchesSucceed] at hf
    | cons d ds =>
      simp only [FetchesSucceed] at hf
      rw [List.cons_append]
      unfold ConverseModel_fetch
      rcases hn : GetSimpleMetricsData w n ev h with ⟨r, h3⟩
      rw [hn] at hf
      simp only at hf
      rw [hf.1]
      simp only
      rw [ih _ _ _ hf.2 hg]
      simp

/-- C7, the claim as stated fails: with a topic that is neither empty nor "none",
in a world where the SDK configuration cannot be loaded, SendMessageSns returns the
load error and publishes nothing, not once. -/
theorem C7_counterexample :
    ¬ (twoMetricsEv.snsTopicArn = "" ∨ EqualFold twoMetricsEv.snsTopicArn "none" = true) ∧
      SendMessageSns noSdkConfigWorld twoMetricsEv "no abnormality" [] =
        (some (.External "failed to load shared config file"),
          [.LoadDefaultConfig "ap-northeast-1"]) ∧
      ((SendMessageSns noSdkConfigWorld twoMetricsEv "no abnormality" []).2.filter
        Call.isPublish).length = 0 := by
  refine ⟨by decide, by rfl, by rfl⟩

/-- C7, amended. With a topic that is neither empty nor "none", the envelope that
SendMessageSns builds for the text t has version "1.0", source "custom" and the
description "*Daily Dashboard Analyzer*\n" followed by t unchanged. When the SDK
configuration loads and the envelope serialises, SendMessageSns makes exactly one
publish call, to the configured topic, with the serialised envelope, and returns the
outcome of that call; when the SDK configuration does not load it returns that error
and publishes nothing. In every case it publishes at most once, and only the
serialised envelope to the configured topic. -/
theorem C7_publish_envelope (w : World) (ev : envValues) (t : String) (h : List Call)
    (hon : ¬ (ev.snsTopicArn = "" ∨ EqualFold ev.snsTopicArn "none" = true)) :
    (SendMessageSns_slackMessage t).Version = "1.0" ∧
    (SendMessageSns_slackMessage t).Source = "custom" ∧
    (SendMessageSns_slackMessage t).Content.Description = "*Daily Dashboard Analyzer*\n" ++ t ∧
    HasPrefix (SendMessageSns_slackMessage t).Content.Description
      "*Daily Dashboard Analyzer*\n" = true ∧
    (SendMessageSns_slackMessage t).Content.Description.data.drop
      "*Daily Dashboard Analyzer*\n".data.length = t.data ∧
    (∀ msg, w.LoadDefaultConfig h ev.dynamoDbRegion = none →
      w.Marshal (SendMessageSns_slackMessage t) = .ok msg →
      SendMessageSns w ev t h =
        (w.Publish (h ++ [.LoadDefaultConfig ev.dynamoDbRegion]) ev.dynamoDbRegion
            ⟨ev.snsTopicArn, msg⟩,
          h ++ [.LoadDefaultConfig ev.dynamoDbRegion,
            .Publish ev.dynamoDbRegion ⟨ev.snsTopicArn, msg⟩])) ∧
    (∀ err, w.LoadDefaultConfig h ev.dynamoDbRegion = some err →
      SendMessageSns w ev t h = (some err, h ++ [.LoadDefaultConfig ev.dynamoDbRegion])) ∧
    (∀ c ∈ newCalls h (SendMessageSns w ev t h).2, c.isPublish = true →
      ∃ msg, w.Marshal (SendMessageSns_slackMessage t) = .ok msg ∧
        c = .Publish ev.dynamoDbRegion ⟨ev.snsTopicArn, msg⟩) ∧
    ((newCalls h (SendMessageSns w ev t h).2).filter Call.isPublish).length ≤ 1 := by
  have hok : ∀ msg, w.LoadDefaultConfig h ev.dynamoDbRegion = none →
      w.Marshal (SendMessageSns_slackMessage t) = .ok msg →
      SendMessageSns w ev t h =
        (w.Publish (h ++ [.LoadDefaultConfig ev.dynamoDbRegion]) ev.dynamoDbRegion
            ⟨ev.snsTopicArn, msg⟩,
          h ++ [.LoadDefaultConfig ev.dynamoDbRegion,
            .Publish ev.dynamoDbRegion ⟨ev.snsTopicArn, msg⟩]) := by
    intro msg hl hm
    unfold SendMessageSns
    rw [if_neg hon, hl]
    simp only [hm]
    split
    · rename_i e he
      rw [he, List.append_assoc]
      rfl
    · rename_i he
      rw [he, List.append_assoc]
      rfl
  have hbad : ∀ err, w.LoadDefaultConfig h ev.dynamoDbRegion = some err →
      SendMessageSns w ev t h = (some err, h ++ [.LoadDefaultConfig ev.dynamoDbRegion]) := by
    intro err hl
    unfold SendMessageSns
    rw [if_neg hon, hl]
  have hser : ∀ err, w.LoadDefaultConfig h ev.dynamoDbRegion = none →
      w.Marshal (SendMessageSns_slackMessage t) = .error err →
      SendMessageSns w ev t h = (some err, h ++ [.LoadDefaultConfig ev.dynamoDbRegion]) := by
    intro err hl hm
    unfold SendMessageSns
    rw [if_neg hon, hl]
    simp only [hm]
  refine ⟨rfl, rfl, rfl, ?_, ?_, hok, hbad, ?_, ?_⟩
  · simp [HasPrefix, SendMessageSns_slackMessage]
  · simp [SendMessageSns_slackMessage]
  · intro c hc hp
    cases hl : w.LoadDefaultConfig h ev.dynamoDbRegion with
    | some err =>
      rw [hbad err hl] at hc
      simp only [newCalls, drop_length_append, List.mem_singleton] at hc
      subst hc
      simp [Call.isPublish] at hp
    | none =>
      cases hm : w.Marshal (SendMessageSns_slackMessage t) with
      | error err =>
        rw [hser err hl hm] at hc
        simp only [newCalls, drop_length_append, List.mem_singleton] at hc
        subst hc
        simp [Call.isPublish] at hp
      | ok msg =>
        rw [hok msg hl hm] at hc
        simp only [newCalls, drop_length_append, List.mem_cons, List.mem_singleton,
          List.not_mem_nil, or_false] at hc
        rcases hc with rfl | rfl
        · simp [Call.isPublish] at hp
        · exact ⟨msg, rfl, rfl⟩
  · cases hl : w.LoadDefaultConfig h ev.dynamoDbRegion with
    | some err =>
      rw [hbad err hl]
      simp [newCalls, Call.isPublish]
    | none =>
      cases hm : w.Marshal (SendMessageSns_slackMessage t) with
      | error err =>
        rw [hser err hl hm]
        simp [newCalls, Call.isPublish]
      | ok msg =>
        rw [hok msg hl hm]
        simp [newCalls, Call.isPublish]

theorem C7_witness :
    (SendMessageSns_slackMessage "no abnormality").Version = "1.0" ∧
    (SendMessageSns_slackMessage "no abnormality").Source = "custom" ∧
    (SendMessageSns_slackMessage "no abnormality").Content.Description =
      "*Daily Dashboard Analyzer*\n" ++ "no abnormality" ∧
    HasPrefix (SendMessageSns_slackMessage "no abnormality").Content.Description
      "*Daily Dashboard Analyzer*\n" = true ∧
    (SendMessageSns_slackMessage "no abnormality").Content.Description.data.drop
      "*Daily Dashboard Analyzer*\n".data.length = "no abnormality".data ∧
    (∀ msg, sampleWorld.LoadDefaultConfig [] twoMetricsEv.dynamoDbRegion = none →
      sampleWorld.Marshal (SendMessageSns_slackMessage "no abnormality") = .ok msg →
      SendMessageSns sampleWorld twoMetricsEv "no abnormality" [] =
        (sampleWorld.Publish ([] ++ [.LoadDefaultConfig twoMetricsEv.dynamoDbRegion])
            twoMetricsEv.dynamoDbRegion ⟨twoMetricsEv.snsTopicArn, msg⟩,
          [] ++ [.LoadDefaultConfig twoMetricsEv.dynamoDbRegion,
            .Publish twoMetricsEv.dynamoDbRegion ⟨twoMetricsEv.snsTopicArn, msg⟩])) ∧
    (∀ err, sampleWorld.LoadDefaultConfig [] twoMetricsEv.dynamoDbRegion = some err →
      SendMessageSns sampleWorld twoMetricsEv "no abnormality" [] =
        (some err, [] ++ [.LoadDefaultConfig twoMetricsEv.dynamoDbRegion])) ∧
    (∀ c ∈ newCalls [] (SendMessageSns sampleWorld twoMetricsEv "no abnormality" []).2,
      c.isPublish = true →
      ∃ msg, sampleWorld.Marshal (SendMessageSns_slackMessage "no abnormality") = .ok msg ∧
        c = .Publish twoMetricsEv.dynamoDbRegion ⟨twoMetricsEv.snsTopicArn, msg⟩) ∧
    ((newCalls [] (SendMessageSns sampleWorld twoMetricsEv "no abnormality" []).2).filter
      Call.isPublish).length ≤ 1 :=
  C7_publish_envelope sampleWorld twoMetricsEv "no abnormality" [] (by decide)

/-- C8. When ConverseModel has loaded its SDK configuration, every fetch has
succeeded and the inference call returns a response whose output is not a message
(the unknown union member, or nil), ConverseModel returns the empty string with no
error; handler then runs SendMessageSns with the empty text, and returns the empty
text with the error of SendMessageSns, which is nil when publishing succeeds or is
switched off. -/
theorem C8_unrecognised_output (w : World) (ev : envValues) (h : List Call)
    (docs : List String) (h1 : List Call) (modelOutput : ConverseOutput)
    (hload : w.LoadDefaultConfig h ev.bedrockRegion = none)
    (hfetch : FetchesSucceed w ev ev.metricsName
      (h ++ [.LoadDefaultConfig ev.bedrockRegion]) docs h1)
    (hconv : w.Converse h1 ev.bedrockRegion (ConverseModel_input ev docs) = .ok modelOutput)
    (hshape : ∀ v, modelOutput.Output ≠ some (.Message v)) :
    ConverseModel w ev h =
        (.ret ("", none), h1 ++ [.Converse ev.bedrockRegion (ConverseModel_input ev docs)]) ∧
      ∀ environ, handler_env environ = (ev, none) →
        handler w environ h =
          (.ret ("", (SendMessageSns w ev ""
              (h1 ++ [.Converse ev.bedrockRegion (ConverseModel_input ev docs)])).1),
            (SendMessageSns w ev ""
              (h1 ++ [.Converse ev.bedrockRegion (ConverseModel_input ev docs)])).2) := by
  have hf := ConverseModel_fetch_of_succeed w ev _ _ _ _ hfetch []
  have hout : ConverseModel_output modelOutput = .ret "" := by
    unfold ConverseModel_output
    rcases ho : modelOutput.Output with _ | o
    · rfl
    · cases o with
      | Message v => exact absurd ho (hshape v)
      | UnknownUnionMember tag => rfl
  have hrun : ConverseModel w ev h =
      (.ret ("", none), h1 ++ [.Converse ev.bedrockRegion (ConverseModel_input ev docs)]) := by
    unfold ConverseModel
    rw [hload]
    simp only [hf, List.nil_append, hconv, hout]
  refine ⟨hrun, ?_⟩
  intro environ henv
  unfold handler
  rw [henv]
  simp only [hrun]
  generalize SendMessageSns w ev ""
    (h1 ++ [.Converse ev.bedrockRegion (ConverseModel_input ev docs)]) = sent
  rcases sent with ⟨e, h3⟩
  cases e <;> rfl

theorem C8_witness :
    ConverseModel nilOutputWorld twoMetricsEv [] =
        (.ret ("", none),
          ([.LoadDefaultConfig "us-east-1"] ++ sampleFetchCalls "alb-requests" ++
            sampleFetchCalls "aurora-select") ++
          [.Converse twoMetricsEv.bedrockRegion
            (ConverseModel_input twoMetricsEv [sampleDoc, sampleDoc])]) ∧
      ∀ environ, handler_env environ = (twoMetricsEv, none) →
        handler nilOutputWorld environ [] =
          (.ret ("", (SendMessageSns nilOutputWorld twoMetricsEv ""
              (([.LoadDefaultConfig "us-east-1"] ++ sampleFetchCalls "alb-requests" ++
                sampleFetchCalls "aurora-select") ++
              [.Converse twoMetricsEv.bedrockRegion
                (ConverseModel_input twoMetricsEv [sampleDoc, sampleDoc])])).1),
            (SendMessageSns nilOutputWorld twoMetricsEv ""
              (([.LoadDefaultConfig "us-east-1"] ++ sampleFetchCalls "alb-requests" ++
                sampleFetchCalls "aurora-select") ++
              [.Converse twoMetricsEv.bedrockRegion
                (ConverseModel_input twoMetricsEv [sampleDoc, sampleDoc])])).2) :=
  C8_unrecognised_output nilOutputWorld twoMetricsEv [] [sampleDoc, sampleDoc]
    ([.LoadDefaultConfig "us-east-1"] ++ sampleFetchCalls "alb-requests" ++
      sampleFetchCalls "aurora-select") ⟨none⟩ rfl
    (by
      refine ⟨rfl, rfl, ?_⟩
      show _ = _
      rfl)
    rfl (by simp)

/-- C9, what the code does where the claim fails. The output switch returns the text
of the first content block when that block is text. A message without content blocks
makes it panic on `Content[0]`, and a message whose first block is not text makes it
panic on the type assertion although a text block follows; so ConverseModel and
handler panic in such a world and no text is returned. -/
theorem C9_first_block_must_be_text :
    (∀ role text rest,
        ConverseModel_output ⟨some (.Message ⟨role, .Text text :: rest⟩)⟩ = .ret text) ∧
      ConverseModel_output ⟨some (.Message ⟨"assistant", []⟩)⟩ =
        .panic "index out of range [0] with length 0" ∧
      ConverseModel_output
          ⟨some (.Message ⟨"assistant", [.Other "toolUse", .Text "no abnormality"]⟩)⟩ =
        .panic "interface conversion: types.ContentBlock is not *types.ContentBlockMemberText" ∧
      (ConverseModel emptyContentWorld twoMetricsEv []).1 =
        .panic "index out of range [0] with length 0" ∧
      (handler emptyContentWorld twoMetricsEnv []).1 =
        .panic "index out of range [0] with length 0" ∧
      (handler textSecondWorld twoMetricsEnv []).1 =
        .panic "interface conversion: types.ContentBlock is not *types.ContentBlockMemberText" := by
  refine ⟨fun _ _ _ => rfl, rfl, rfl, by rfl, by rfl, by rfl⟩

/-- C10. When the metrics before index i have been fetched and the fetch of metric i
fails at one of its steps (SDK configuration, parameter lookup, a dateRange that is
not a decimal integer, dimensions that are not JSON for a list of string maps, a
period that is not a decimal 32-bit integer, the metric query), GetSimpleMetricsData
returns that error with the nil document; ConverseModel returns the empty text with
that error and ends with the calls of the failed fetch, so no later metric is
fetched; handler returns the empty text with that error; and no inference call and
no publish call is among the calls of the run. -/
theorem C10_fetch_failure (w : World) (ev : envValues) (h : List Call)
    (pre post : List String) (m : String) (docs : List String) (h1 h2 : List Call)
    (err : GoError)
    (hnames : ev.metricsName = pre ++ m :: post)
    (hload : w.LoadDefaultConfig h ev.bedrockRegion = none)
    (hpre : FetchesSucceed w ev pre (h ++ [.LoadDefaultConfig ev.bedrockRegion]) docs h1)
    (hfail : FetchFails w m ev h1 err h2) :
    GetSimpleMetricsData w m ev h1 = (.ret ("", some err), h2) ∧
      ConverseModel w ev h = (.ret ("", some err), h2) ∧
      (∀ environ, handler_env environ = (ev, none) →
        handler w environ h = (.ret ("", some err), h2)) ∧
      ∀ c ∈ newCalls h h2, c.isConverse = false ∧ c.isPublish = false := by
  have hq := GetSimpleMetricsData_query_of_fails w m ev h1 err h2 hfail
  have hg : GetSimpleMetricsData w m ev h1 = (.ret ("", some err), h2) := by
    unfold GetSimpleMetricsData
    rw [hq]
  have hstop := ConverseModel_fetch_stops w ev m post err h2 pre _ docs h1 hpre hg []
  have hrun : ConverseModel w ev h = (.ret ("", some err), h2) := by
    unfold ConverseModel
    rw [hload, hnames]
    simp only [hstop]
  refine ⟨hg, hrun, ?_, ?_⟩
  · intro environ henv
    unfold handler
    rw [henv]
    simp only [hrun]
  · obtain ⟨_, s, hs, hc⟩ := FetchesSucceed_calls w ev _ _ _ _ hpre
    obtain ⟨s2, hs2, hc2⟩ := GetSimpleMetricsData_calls w m ev h1
    rw [hg] at hs2
    simp only at hs2
    intro c hmem
    rw [hs2, hs] at hmem
    simp only [newCalls, List.append_assoc, drop_length_append, List.mem_append,
      List.mem_singleton] at hmem
    rcases hmem with rfl | hmem | hmem
    · simp [Call.isConverse, Call.isPublish]
    · exact hc c hmem
    · exact hc2 c hmem

theorem C10_witness :
    GetSimpleMetricsData badPeriodWorld "aurora-select" twoMetricsEv
          ([.LoadDefaultConfig "us-east-1"] ++ sampleFetchCalls "alb-requests") =
        (.ret ("", some (.NumError "ParseInt" "5m" "invalid syntax")),
          [.LoadDefaultConfig "us-east-1"] ++ sampleFetchCalls "alb-requests" ++
            [.LoadDefaultConfig "ap-northeast-1", .LoadDefaultConfig "ap-northeast-1",
              .GetItem "ap-northeast-1"
                { TableName := "params", Key := [("awsService", .S "aurora-select")] }]) ∧
      ConverseModel badPeriodWorld twoMetricsEv [] =
        (.ret ("", some (.NumError "ParseInt" "5m" "invalid syntax")),
          [.LoadDefaultConfig "us-east-1"] ++ sampleFetchCalls "alb-requests" ++
            [.LoadDefaultConfig "ap-northeast-1", .LoadDefaultConfig "ap-northeast-1",
              .GetItem "ap-northeast-1"
                { TableName := "params", Key := [("awsService", .S "aurora-select")] }]) ∧
      (∀ environ, handler_env environ = (twoMetricsEv, none) →
        handler badPeriodWorld environ [] =
          (.ret ("", some (.NumError "ParseInt" "5m" "invalid syntax")),
            [.LoadDefaultConfig "us-east-1"] ++ sampleFetchCalls "alb-requests" ++
              [.LoadDefaultConfig "ap-northeast-1", .LoadDefaultConfig "ap-northeast-1",
                .GetItem "ap-northeast-1"
                  { TableName := "params", Key := [("awsService", .S "aurora-select")] }])) ∧
      ∀ c ∈ newCalls []
          ([.LoadDefaultConfig "us-east-1"] ++ sampleFetchCalls "alb-requests" ++
            [.LoadDefaultConfig "ap-northeast-1", .LoadDefaultConfig "ap-northeast-1",
              .GetItem "ap-northeast-1"
                { TableName := "params", Key := [("awsService", .S "aurora-select")] }]),
        c.isConverse = false ∧ c.isPublish = false :=
  C10_fetch_failure badPeriodWorld twoMetricsEv [] ["alb-requests"] [] "aurora-select"
    [sampleDoc] ([.LoadDefaultConfig "us-east-1"] ++ sampleFetchCalls "alb-requests") _ _
    rfl rfl
    (by
      refine ⟨rfl, ?_⟩
      show _ = _
      rfl)
    (FetchFails.period
      (GetParamsFromDynamoDb badPeriodWorld "aurora-select" twoMetricsEv
        ([.LoadDefaultConfig "us-east-1"] ++ sampleFetchCalls "alb-requests" ++
          [.LoadDefaultConfig "ap-northeast-1"])).1.1
      _ 3 [] 0 _ rfl rfl rfl rfl rfl)

end DashboardAnalyzer
